import Mathlib

/-!
Verification of the blender2arf GLB export core
===============================================

Shallow embedding of the GLB container serializer, the accessor/buffer
builder, the external texture registry, the texture cropper and the
mesh-processor texture path of the `blender2arf` repository, together with
proofs of the specification's claims about them.

Conventions used throughout:
* byte strings are `List UInt8`; machine integers are `Nat`/`Int` with
  explicit truncation where the source packs fixed-width fields;
* Python floats appearing in the cropping arithmetic are modelled as `ℚ`
  (the comparisons the code performs are far from the rounding error of
  IEEE doubles at all realistic pixel sizes);
* numpy arrays are modelled by their element bit patterns, so "bit-for-bit"
  statements are statements about `Nat` bit patterns and little-endian
  byte serialization.
-/

/-! ## Little-endian byte packing (struct.pack of uint32 and numpy tobytes) -/

/-- Little-endian serialization of `v` into `w` bytes
(`struct.pack` / numpy `tobytes` byte order on the target platforms). -/
def leBytes : Nat → Nat → List UInt8
  | 0, _ => []
  | w + 1, v => UInt8.ofNat (v % 256) :: leBytes w (v / 256)

/-- Little-endian decoding of a byte string into a natural number. -/
def decodeLe : List UInt8 → Nat
  | [] => 0
  | b :: bs => b.toNat + 256 * decodeLe bs

@[simp] theorem length_leBytes (w v : Nat) : (leBytes w v).length = w := by
  induction w generalizing v with
  | zero => rfl
  | succ w ih => simp [leBytes, ih]

theorem decodeLe_leBytes (w v : Nat) : decodeLe (leBytes w v) = v % 256 ^ w := by
  induction w generalizing v with
  | zero => simp [leBytes, decodeLe, Nat.mod_one]
  | succ w ih =>
    have h256 : (UInt8.ofNat (v % 256)).toNat = v % 256 % 256 := rfl
    rw [leBytes, decodeLe, h256, ih, pow_succ, Nat.mul_comm (256 ^ w) 256, Nat.mod_mul]
    omega

theorem decodeLe_leBytes_of_lt {w v : Nat} (h : v < 256 ^ w) :
    decodeLe (leBytes w v) = v := by
  rw [decodeLe_leBytes, Nat.mod_eq_of_lt h]

/-- Read the little-endian `uint32` stored at byte offset `off` of a byte
stream (how a GLB reader reads the `totalLength` header field). -/
def readU32At (bs : List UInt8) (off : Nat) : Nat :=
  decodeLe ((bs.drop off).take 4)

/-- Number of padding bytes needed to bring length `n` to the next multiple
of four: `(4 - (n % 4)) % 4` in the source. -/
def pad4 (n : Nat) : Nat := (4 - n % 4) % 4

theorem pad4_aligned (n : Nat) : (n + pad4 n) % 4 = 0 := by
  unfold pad4; omega

theorem pad4_eq_zero {n : Nat} (h : n % 4 = 0) : pad4 n = 0 := by
  unfold pad4; omega

/-! ## The GLB container serializers (`_create_glb_binary`)

Two copies exist in the source.  `blender_to_glb_simple.py` computes
`bin_chunk_length` from the *unpadded* buffer and only emits the binary
chunk when the buffer is nonempty; `glb_exporter.py` pads the buffer first
and always emits both chunks. -/

/-- The `SimpleGLBGenerator.GLTF_MAGIC` -/
def GLTF_MAGIC : Nat := 0x46546C67
/-- The `SimpleGLBGenerator.JSON_CHUNK_TYPE` -/
def JSON_CHUNK_TYPE : Nat := 0x4E4F534A
/-- The `SimpleGLBGenerator.BIN_CHUNK_TYPE` -/
def BIN_CHUNK_TYPE : Nat := 0x004E4942

/-- The `json_bytes` after space padding to a 4-byte boundary (both copies of
`_create_glb_binary` do this identically). -/
def jsonPadded (j : List UInt8) : List UInt8 :=
  j ++ List.replicate (pad4 j.length) 0x20

/-- a binary buffer after zero padding to a 4-byte boundary. -/
def bufPadded (b : List UInt8) : List UInt8 :=
  b ++ List.replicate (pad4 b.length) 0

@[simp] theorem length_jsonPadded (j : List UInt8) :
    (jsonPadded j).length = j.length + pad4 j.length := by
  simp [jsonPadded]

@[simp] theorem length_bufPadded (b : List UInt8) :
    (bufPadded b).length = b.length + pad4 b.length := by
  simp [bufPadded]

/-- The `total_length` as computed by `blender_to_glb_simple.py` (lines 307-310):
`12 + (8 + len(json_bytes)) + (8 + len(buffer_data) if buffer_data else 0)`.
The binary chunk length is taken from the *unpadded* buffer. -/
def simpleTotalLength (j b : List UInt8) : Nat :=
  12 + (8 + (jsonPadded j).length) + (if b ≠ [] then 8 + b.length else 0)

/-- The `SimpleGLBGenerator._create_glb_binary` from `blender_to_glb_simple.py`
(lines 296-331): writes the 12-byte header, the JSON chunk and, when the
buffer is nonempty, the binary chunk holding the zero-padded buffer. -/
def create_glb_binary_simple (j b : List UInt8) : List UInt8 :=
  leBytes 4 GLTF_MAGIC ++ leBytes 4 2 ++ leBytes 4 (simpleTotalLength j b) ++
    (leBytes 4 (jsonPadded j).length ++ leBytes 4 JSON_CHUNK_TYPE ++ jsonPadded j ++
      (if b ≠ [] then
        leBytes 4 (bufPadded b).length ++ leBytes 4 BIN_CHUNK_TYPE ++ bufPadded b
      else []))

/-- The `total_length` as computed by `glb_exporter.py` (line 296):
`12 + 8 + len(json_bytes) + 8 + len(buffer_data)` where both payloads were
already padded. -/
def exporterTotalLength (j b : List UInt8) : Nat :=
  12 + 8 + (jsonPadded j).length + 8 + (bufPadded b).length

/-- The `SimpleGLBGenerator._create_glb_binary` from `glb_exporter.py`
(lines 281-316): pads both payloads first and writes both chunks
unconditionally.  (the ASCII bytes glTF are the little-endian encoding of
`0x46546C67`.) -/
def create_glb_binary_exporter (j b : List UInt8) : List UInt8 :=
  leBytes 4 GLTF_MAGIC ++ leBytes 4 2 ++ leBytes 4 (exporterTotalLength j b) ++
    (leBytes 4 (jsonPadded j).length ++ leBytes 4 JSON_CHUNK_TYPE ++ jsonPadded j ++
      (leBytes 4 (bufPadded b).length ++ leBytes 4 BIN_CHUNK_TYPE ++ bufPadded b))

theorem readU32At_header (a b n : Nat) (t : List UInt8) :
    readU32At (leBytes 4 a ++ leBytes 4 b ++ leBytes 4 n ++ t) 8 = n % 2 ^ 32 := by
  have h8 : (leBytes 4 a ++ leBytes 4 b).length = 8 := by simp
  have hdrop : ((leBytes 4 a ++ leBytes 4 b) ++ (leBytes 4 n ++ t)).drop 8
      = leBytes 4 n ++ t := List.drop_left' h8
  have htake : (leBytes 4 n ++ t).take 4 = leBytes 4 n :=
    List.take_left' (length_leBytes 4 n)
  have h232 : (2 : Nat) ^ 32 = 256 ^ 4 := by norm_num
  rw [readU32At, List.append_assoc (leBytes 4 a ++ leBytes 4 b), hdrop, htake,
    decodeLe_leBytes, h232]

theorem length_create_glb_binary_exporter (j b : List UInt8) :
    (create_glb_binary_exporter j b).length = exporterTotalLength j b := by
  simp [create_glb_binary_exporter, exporterTotalLength]
  omega

theorem length_create_glb_binary_simple (j b : List UInt8)
    (halign : b.length % 4 = 0) :
    (create_glb_binary_simple j b).length = simpleTotalLength j b := by
  have hpadb : pad4 b.length = 0 := pad4_eq_zero halign
  by_cases hb : b = [] <;>
    simp [create_glb_binary_simple, simpleTotalLength, hb, hpadb] <;> omega

theorem create_glb_binary_exporter_exact (j b : List UInt8)
    (hfit : (create_glb_binary_exporter j b).length < 2 ^ 32) :
    readU32At (create_glb_binary_exporter j b) 8
      = (create_glb_binary_exporter j b).length := by
  have hlen := length_create_glb_binary_exporter j b
  rw [hlen] at hfit ⊢
  rw [create_glb_binary_exporter, readU32At_header, Nat.mod_eq_of_lt hfit]

theorem create_glb_binary_simple_exact (j b : List UInt8)
    (halign : b.length % 4 = 0)
    (hfit : (create_glb_binary_simple j b).length < 2 ^ 32) :
    readU32At (create_glb_binary_simple j b) 8
      = (create_glb_binary_simple j b).length := by
  have hlen := length_create_glb_binary_simple j b halign
  rw [hlen] at hfit ⊢
  rw [create_glb_binary_simple, readU32At_header, Nat.mod_eq_of_lt hfit]

/-! ## numpy arrays as bit patterns (`_add_accessor` input model)

An array is its dtype, its leading dimension, its optional trailing
dimension (numpy `ndim == 1` vs `ndim == 2`, the only shapes the exporter
produces) and the flat list of element bit patterns.  `tobytes` is the
little-endian concatenation of the element bit patterns. -/

/-- The numpy dtypes that can reach `_add_accessor` in this code base. -/
inductive Dtype
  | int8 | uint8 | int16 | uint16 | int32 | uint32 | int64 | float32 | float64
  deriving DecidableEq, Repr

/-- numpy `dtype.itemsize` in bytes. -/
def Dtype.itemsize : Dtype → Nat
  | .int8 => 1 | .uint8 => 1
  | .int16 => 2 | .uint16 => 2
  | .int32 => 4 | .uint32 => 4 | .float32 => 4
  | .int64 => 8 | .float64 => 8

/-- The `dtype_map` of `_add_accessor` (`blender_to_glb_simple.py` lines
206-214): six recognized dtypes, `dtype_map.get(data.dtype, 5126)` defaults
everything else to FLOAT. -/
def dtypeComponentType : Dtype → Nat
  | .int8 => 5120
  | .uint8 => 5121
  | .int16 => 5122
  | .uint16 => 5123
  | .uint32 => 5125
  | .float32 => 5126
  | _ => 5126

/-- Byte width of a glTF component type code (how a reader decodes the
accessor): BYTE/UBYTE 1, SHORT/USHORT 2, UINT/FLOAT 4. -/
def componentWidth (c : Nat) : Nat :=
  if c = 5120 ∨ c = 5121 then 1
  else if c = 5122 ∨ c = 5123 then 2
  else 4

/-- The `TYPE_STRINGS` (`blender_to_glb_simple.py` lines 84-91). -/
def typeStringOfArity (n : Nat) : Option String :=
  if n = 1 then some "SCALAR"
  else if n = 2 then some "VEC2"
  else if n = 3 then some "VEC3"
  else if n = 4 then some "VEC4"
  else if n = 9 then some "MAT3"
  else if n = 16 then some "MAT4"
  else none

/-- Number of components per element denoted by a glTF type string (how a
reader decodes the accessor). -/
def arityOfTypeString (s : String) : Nat :=
  if s = "SCALAR" then 1
  else if s = "VEC2" then 2
  else if s = "VEC3" then 3
  else if s = "VEC4" then 4
  else if s = "MAT3" then 9
  else if s = "MAT4" then 16
  else 1

/-- A numpy array as it reaches `_add_accessor`: 1-D (`cols = none`) or 2-D
(`cols = some c`), elements as bit patterns. -/
structure NdArray where
  dtype : Dtype
  rows : Nat
  cols : Option Nat
  elems : List Nat
  deriving DecidableEq, Repr

/-- Trailing dimension: `1` for 1-D arrays. -/
def NdArray.arity (nd : NdArray) : Nat := nd.cols.getD 1

/-- The array holds `rows * arity` elements, each fitting in `itemsize`
bytes. -/
def NdArray.WellFormed (nd : NdArray) : Prop :=
  nd.elems.length = nd.rows * nd.arity ∧
    ∀ e ∈ nd.elems, e < 256 ^ nd.dtype.itemsize

instance (nd : NdArray) : Decidable nd.WellFormed := by
  unfold NdArray.WellFormed; infer_instance

/-- numpy `data.nbytes`. -/
def NdArray.nbytes (nd : NdArray) : Nat := nd.rows * nd.arity * nd.dtype.itemsize

/-- numpy `data.tobytes()`: little-endian bytes of every element in order. -/
def NdArray.tobytes (nd : NdArray) : List UInt8 :=
  nd.elems.flatMap (leBytes nd.dtype.itemsize)

/-- The `type` string `_add_accessor` records: `"SCALAR"` for 1-D arrays,
`TYPE_STRINGS.get(shape[1], "SCALAR")` for 2-D arrays. -/
def NdArray.typeString (nd : NdArray) : String :=
  match nd.cols with
  | none => "SCALAR"
  | some c => (typeStringOfArity c).getD "SCALAR"

theorem length_tobytes (nd : NdArray) :
    nd.tobytes.length = nd.elems.length * nd.dtype.itemsize := by
  unfold NdArray.tobytes
  induction nd.elems with
  | nil => simp
  | cons x xs ih => simp [ih]; ring

/-- Decode `n` consecutive `width`-byte little-endian values from a byte
string (how a reader interprets a bufferView through an accessor's
`componentType`, `count` and `type`). -/
def decodeElems (width : Nat) : Nat → List UInt8 → List Nat
  | 0, _ => []
  | n + 1, bs => decodeLe (bs.take width) :: decodeElems width n (bs.drop width)

theorem decodeElems_flatMap (width : Nat) (l : List Nat)
    (hw : ∀ v ∈ l, v < 256 ^ width) :
    decodeElems width l.length (l.flatMap (leBytes width)) = l := by
  induction l with
  | nil => simp [decodeElems]
  | cons x xs ih =>
    have hx : x < 256 ^ width := hw x (by simp)
    have hxs : ∀ v ∈ xs, v < 256 ^ width := fun v hv => hw v (by simp [hv])
    simp only [List.flatMap_cons, List.length_cons, decodeElems]
    rw [List.take_left' (length_leBytes width x),
      List.drop_left' (length_leBytes width x),
      decodeLe_leBytes_of_lt hx, ih hxs]

/-! ## `SimpleGLBGenerator` of `blender_to_glb_simple.py` -/

/-- An emitted accessor.  The numeric `min`/`max` values attached to
POSITION accessors are IEEE-float comparisons over the payload and are not
needed by any claim; only the fact that they are attached is tracked. -/
structure Accessor where
  bufferView : Nat
  componentType : Nat
  count : Nat
  typeStr : String
  withMinMax : Bool
  deriving DecidableEq, Repr

/-- An emitted bufferView (`buffer` is always 0 in the source). -/
structure BufferView where
  buffer : Nat
  byteOffset : Nat
  byteLength : Nat
  target : Option Nat
  deriving DecidableEq, Repr

/-- Mutable state of a `SimpleGLBGenerator`: the growing byte buffer and
the emitted accessor/bufferView lists. -/
structure GenState where
  buffer : List UInt8
  accessors : List Accessor
  bufferViews : List BufferView
  deriving DecidableEq, Repr

/-- State after `__init__` / the reset at the top of `create_glb`. -/
def GenState.empty : GenState := ⟨[], [], []⟩

/-- The attribute names tagged with the ARRAY_BUFFER target
(`blender_to_glb_simple.py` line 249). -/
def vertexAttributeNames : List String :=
  ["POSITION", "NORMAL", "TANGENT", "TEXCOORD_0", "TEXCOORD_1",
   "COLOR_0", "JOINTS_0", "WEIGHTS_0"]

/-- The `SimpleGLBGenerator._add_accessor` (`blender_to_glb_simple.py` lines
199-266): derive `componentType` and `type`, record the accessor, create a
bufferView at the current write position, write `data.tobytes()`, pad the
buffer to a 4-byte boundary, and return the new accessor index. -/
def add_accessor (s : GenState) (nd : NdArray) (attributeType : String) :
    GenState × Nat :=
  let componentType := dtypeComponentType nd.dtype
  let count := nd.rows
  let typeStr := nd.typeString
  let accessor : Accessor :=
    { bufferView := s.bufferViews.length
      componentType := componentType
      count := count
      typeStr := typeStr
      withMinMax := attributeType = "POSITION" ∧ nd.cols = some 3 }
  let byteOffset := s.buffer.length
  let byteLength := nd.nbytes
  let target : Option Nat :=
    if attributeType ∈ vertexAttributeNames then some 34962
    else if attributeType = "INDICES" then some 34963
    else none
  let bufferView : BufferView := ⟨0, byteOffset, byteLength, target⟩
  let buffer1 := s.buffer ++ nd.tobytes
  let buffer2 := buffer1 ++ List.replicate (pad4 buffer1.length) 0
  (⟨buffer2, s.accessors ++ [accessor], s.bufferViews ++ [bufferView]⟩,
    s.accessors.length)

/-- An input primitive (an entry of the primitives list of mesh_data): attribute entries
whose values may or may not be numpy arrays (`none` models a non-ndarray
value, which `_process_primitive` skips), optional indices, optional
material index, drawing mode. -/
structure PrimIn where
  attributes : List (String × Option NdArray)
  indices : Option NdArray
  material : Option Nat
  mode : Nat
  deriving Repr

/-- A processed primitive as placed into the glTF document. -/
structure PrimOut where
  attributes : List (String × Nat)
  mode : Nat
  indices : Option Nat
  material : Option Nat
  deriving DecidableEq, Repr

/-- The `SimpleGLBGenerator._process_primitive` (`blender_to_glb_simple.py`
lines 168-197).  Returns `none` (and leaves the state untouched) when no
attribute value is an ndarray; otherwise appends accessors for every
ndarray attribute, then the indices, and resolves the material index
modulo the material count. -/
def process_primitive (matCount : Nat) (s : GenState) (p : PrimIn) :
    GenState × Option PrimOut :=
  let step := fun (acc : GenState × List (String × Nat)) (kv : String × Option NdArray) =>
    match kv.2 with
    | some nd =>
      let r := add_accessor acc.1 nd kv.1
      (r.1, acc.2 ++ [(kv.1, r.2)])
    | none => acc
  let r := p.attributes.foldl step (s, [])
  if r.2 = [] then (r.1, none)
  else
    let r2 :=
      match p.indices with
      | some nd =>
        let a := add_accessor r.1 nd "INDICES"
        (a.1, some a.2)
      | none => (r.1, none)
    let material :=
      match p.material with
      | some m => some (if matCount ≠ 0 then m % matCount else 0)
      | none => none
    (r2.1, some ⟨r.2, p.mode, r2.2, material⟩)

/-- IEEE-754 single-precision bit pattern of `1.0`. -/
def f32_one : Nat := 0x3F800000

/-- The placeholder triangle of `_create_minimal_mesh`
(`blender_to_glb_simple.py` lines 271-275):
`[[0,0,0],[1,0,0],[0,1,0]]` as float32. -/
def minimalPositions : NdArray :=
  ⟨.float32, 3, some 3, [0, 0, 0, f32_one, 0, 0, 0, f32_one, 0]⟩

/-- A glTF mesh entry. -/
structure MeshOut where
  name : String
  primitives : List PrimOut
  deriving DecidableEq, Repr

/-- The parts of the glTF document tree the claims are about. -/
structure GltfDoc where
  meshes : List MeshOut
  accessors : List Accessor
  bufferViews : List BufferView
  bufferByteLength : Nat
  deriving DecidableEq, Repr

/-- The input to `create_glb`. -/
structure MeshIn where
  name : String
  primitives : List PrimIn
  deriving Repr

/-- The `SimpleGLBGenerator.create_glb` (`blender_to_glb_simple.py` lines
99-152), returning the document tree together with the final binary
buffer: reset state, process every primitive, substitute the minimal
single-triangle mesh when no primitive survived, and install a minimal
4-byte buffer when the byte buffer stayed empty. -/
def create_glb (md : MeshIn) (matCount : Nat) : GltfDoc × List UInt8 :=
  let run := md.primitives.foldl
    (fun (acc : GenState × List PrimOut) p =>
      let r := process_primitive matCount acc.1 p
      (r.1, match r.2 with | some x => acc.2 ++ [x] | none => acc.2))
    (GenState.empty, [])
  let withMesh :=
    if run.2 ≠ [] then (run.1, MeshOut.mk md.name run.2)
    else
      let a := add_accessor run.1 minimalPositions "POSITION"
      (a.1, MeshOut.mk "minimal_mesh" [⟨[("POSITION", a.2)], 4, none, none⟩])
  let s := withMesh.1
  let finalBuffer := if s.buffer.length > 0 then s.buffer else List.replicate 4 0
  (⟨[withMesh.2], s.accessors, s.bufferViews, finalBuffer.length⟩, finalBuffer)

/-- The full GLB byte stream `create_glb` returns, with the JSON
serialization of the document (`json.dumps`) supplied as an external
function. -/
def create_glb_bytes (ser : GltfDoc → List UInt8) (md : MeshIn) (matCount : Nat) :
    List UInt8 :=
  create_glb_binary_simple (ser (create_glb md matCount).1) (create_glb md matCount).2

/-- Generator-state invariant: the write cursor sits on a 4-byte boundary
and every emitted bufferView offset does too. -/
def GenState.Aligned (s : GenState) : Prop :=
  s.buffer.length % 4 = 0 ∧ ∀ bv ∈ s.bufferViews, bv.byteOffset % 4 = 0

theorem add_accessor_buffer_aligned (s : GenState) (nd : NdArray) (a : String) :
    ((add_accessor s nd a).1).buffer.length % 4 = 0 := by
  simp only [add_accessor, List.length_append, List.length_replicate]
  exact pad4_aligned _

theorem add_accessor_aligned {s : GenState} (h : s.Aligned) (nd : NdArray)
    (a : String) : ((add_accessor s nd a).1).Aligned := by
  refine ⟨add_accessor_buffer_aligned s nd a, ?_⟩
  intro bv hbv
  simp only [add_accessor, List.mem_append, List.mem_singleton] at hbv
  rcases hbv with hbv | rfl
  · exact h.2 bv hbv
  · exact h.1

theorem process_primitive_aligned {s : GenState} (h : s.Aligned)
    (matCount : Nat) (p : PrimIn) :
    ((process_primitive matCount s p).1).Aligned := by
  have hfold : ∀ (l : List (String × Option NdArray)) (acc : GenState × List (String × Nat)),
      acc.1.Aligned →
      (l.foldl (fun acc kv =>
        match kv.2 with
        | some nd => ((add_accessor acc.1 nd kv.1).1, acc.2 ++ [(kv.1, (add_accessor acc.1 nd kv.1).2)])
        | none => acc) acc).1.Aligned := by
    intro l
    induction l with
    | nil => intro acc hacc; exact hacc
    | cons kv tl ih =>
      intro acc hacc
      rcases kv with ⟨k, v⟩
      cases v with
      | none => exact ih acc hacc
      | some nd => exact ih _ (add_accessor_aligned hacc nd k)
  have halr := hfold p.attributes (s, []) h
  unfold process_primitive
  dsimp only
  split
  · exact halr
  · cases hi : p.indices with
    | none => simpa [hi] using halr
    | some nd => simpa [hi] using add_accessor_aligned halr nd "INDICES"

/-! ## `SimpleGLBGenerator` of `glb_exporter.py` and the cropped-texture
append of `glb_exporter_cropped.py`

This generator writes through `add_primitive_data` (which pads *before*
taking the offset) and, in the cropping pipeline, through
`_add_texture_to_glb_cropped` (which also pads before taking the offset
but does not pad after writing the texture bytes). -/

/-- glTF texture sampler record (`glb_exporter_cropped.py` lines 62-67). -/
structure SamplerRec where
  magFilter : Nat
  minFilter : Nat
  wrapS : Nat
  wrapT : Nat
  deriving DecidableEq, Repr

/-- glTF image record referencing a bufferView (the `name` strings carry no
verified content and are kept as given). -/
structure ImageRec where
  bufferView : Nat
  mimeType : String
  deriving DecidableEq, Repr

/-- glTF texture record. -/
structure TextureRec where
  source : Nat
  sampler : Nat
  deriving DecidableEq, Repr

/-- State of the `glb_exporter.py` generator. -/
structure ExpState where
  buffer : List UInt8
  accessors : List Accessor
  bufferViews : List BufferView
  images : List ImageRec
  samplers : List SamplerRec
  textures : List TextureRec
  deriving Repr

def ExpState.empty : ExpState := ⟨[], [], [], [], [], []⟩

/-- The `SimpleGLBGenerator.add_buffer_view` (`glb_exporter.py` lines
123-134). -/
def add_buffer_view (s : ExpState) (byteOffset byteLength : Nat)
    (target : Option Nat) : ExpState × Nat :=
  ({ s with bufferViews := s.bufferViews ++ [⟨0, byteOffset, byteLength, target⟩] },
    s.bufferViews.length)

/-- The `SimpleGLBGenerator.add_primitive_data` (`glb_exporter.py` lines
136-163): pad the buffer to a 4-byte boundary, write the bytes at the
padded offset, create the bufferView and the accessor. -/
def add_primitive_data (s : ExpState) (nd : NdArray) (componentType : Nat)
    (accessorType : String) (target : Option Nat) : ExpState × Nat :=
  let buffer1 := s.buffer ++ List.replicate (pad4 s.buffer.length) 0
  let byteOffset := buffer1.length
  let dataBytes := nd.tobytes
  let buffer2 := buffer1 ++ dataBytes
  let r := add_buffer_view { s with buffer := buffer2 } byteOffset dataBytes.length target
  let accessor : Accessor :=
    { bufferView := r.2
      componentType := componentType
      count := nd.rows
      typeStr := accessorType
      withMinMax := accessorType = "VEC3" ∧ nd.cols = some 3 }
  ({ r.1 with accessors := r.1.accessors ++ [accessor] }, r.1.accessors.length)

/-- The `_add_texture_to_glb_cropped` (`glb_exporter_cropped.py` lines 33-77):
pad the buffer to a 4-byte boundary, write the cropped texture bytes at
the padded offset (no padding after), then append image, sampler and
texture records. -/
def add_texture_to_glb_cropped (s : ExpState) (croppedData : List UInt8)
    (mimeType : String) : ExpState × Nat :=
  let buffer1 := s.buffer ++ List.replicate (pad4 s.buffer.length) 0
  let bufferOffset := buffer1.length
  let buffer2 := buffer1 ++ croppedData
  let bufferViewIdx := s.bufferViews.length
  let imageIdx := s.images.length
  let samplerIdx := s.samplers.length
  let textureIdx := s.textures.length
  ({ buffer := buffer2
     accessors := s.accessors
     bufferViews := s.bufferViews ++ [⟨0, bufferOffset, croppedData.length, none⟩]
     images := s.images ++ [⟨bufferViewIdx, mimeType⟩]
     samplers := s.samplers ++ [⟨9729, 9987, 10497, 10497⟩]
     textures := s.textures ++ [⟨imageIdx, samplerIdx⟩] }, textureIdx)

/-- One append operation on the `glb_exporter.py` generator as exercised by
the cropping pipeline. -/
inductive ExpOp
  | primData (nd : NdArray) (componentType : Nat) (accessorType : String)
      (target : Option Nat)
  | texture (croppedData : List UInt8) (mimeType : String)

/-- Run a sequence of appends on the `glb_exporter.py` generator. -/
def runExp (ops : List ExpOp) : ExpState :=
  ops.foldl
    (fun s op =>
      match op with
      | .primData nd c a t => (add_primitive_data s nd c a t).1
      | .texture d m => (add_texture_to_glb_cropped s d m).1)
    ExpState.empty

/-- Run a sequence of `_add_accessor` appends on the
`blender_to_glb_simple.py` generator. -/
def runSimple (ops : List (NdArray × String)) : GenState :=
  ops.foldl (fun s op => (add_accessor s op.1 op.2).1) GenState.empty

/-- bufferView offsets emitted so far are 4-byte aligned. -/
def ExpState.ViewsAligned (s : ExpState) : Prop :=
  ∀ bv ∈ s.bufferViews, bv.byteOffset % 4 = 0

theorem add_primitive_data_views_aligned {s : ExpState}
    (h : s.ViewsAligned) (nd : NdArray) (c : Nat) (a : String)
    (t : Option Nat) : ((add_primitive_data s nd c a t).1).ViewsAligned := by
  intro bv hbv
  simp only [add_primitive_data, add_buffer_view, List.mem_append,
    List.mem_singleton] at hbv
  rcases hbv with hbv | rfl
  · exact h bv hbv
  · simpa using pad4_aligned s.buffer.length

theorem add_texture_to_glb_cropped_views_aligned {s : ExpState}
    (h : s.ViewsAligned) (d : List UInt8) (m : String) :
    ((add_texture_to_glb_cropped s d m).1).ViewsAligned := by
  intro bv hbv
  simp only [add_texture_to_glb_cropped, List.mem_append,
    List.mem_singleton] at hbv
  rcases hbv with hbv | rfl
  · exact h bv hbv
  · simpa using pad4_aligned s.buffer.length

theorem runExp_views_aligned (ops : List ExpOp) : (runExp ops).ViewsAligned := by
  have : ∀ (l : List ExpOp) (s : ExpState), s.ViewsAligned →
      (l.foldl (fun s op =>
        match op with
        | .primData nd c a t => (add_primitive_data s nd c a t).1
        | .texture d m => (add_texture_to_glb_cropped s d m).1) s).ViewsAligned := by
    intro l
    induction l with
    | nil => intro s hs; exact hs
    | cons op tl ih =>
      intro s hs
      cases op with
      | primData nd c a t => exact ih _ (add_primitive_data_views_aligned hs nd c a t)
      | texture d m => exact ih _ (add_texture_to_glb_cropped_views_aligned hs d m)
  exact this ops ExpState.empty (by intro bv hbv; simp [ExpState.empty] at hbv)

theorem runSimple_aligned (ops : List (NdArray × String)) :
    (runSimple ops).Aligned := by
  have : ∀ (l : List (NdArray × String)) (s : GenState), s.Aligned →
      (l.foldl (fun s op => (add_accessor s op.1 op.2).1) s).Aligned := by
    intro l
    induction l with
    | nil => intro s hs; exact hs
    | cons op tl ih => intro s hs; exact ih _ (add_accessor_aligned hs op.1 op.2)
  refine this ops GenState.empty ⟨rfl, ?_⟩
  intro bv hbv; simp [GenState.empty] at hbv

theorem create_glb_state_aligned (md : MeshIn) (matCount : Nat) :
    (create_glb md matCount).2.length % 4 = 0 := by
  have hfold : ∀ (l : List PrimIn) (acc : GenState × List PrimOut), acc.1.Aligned →
      (l.foldl (fun acc p =>
        ((process_primitive matCount acc.1 p).1,
          match (process_primitive matCount acc.1 p).2 with
          | some x => acc.2 ++ [x] | none => acc.2)) acc).1.Aligned := by
    intro l
    induction l with
    | nil => intro acc hacc; exact hacc
    | cons p tl ih =>
      intro acc hacc
      exact ih _ (process_primitive_aligned hacc matCount p)
  have hempty : GenState.empty.Aligned := by
    refine ⟨rfl, ?_⟩; intro bv hbv; simp [GenState.empty] at hbv
  have hrun := hfold md.primitives (GenState.empty, []) hempty
  unfold create_glb
  dsimp only
  split
  · split
    · exact hrun.1
    · simp
  · split
    · exact (add_accessor_aligned hrun minimalPositions "POSITION").1
    · simp

instance : Inhabited Accessor := ⟨⟨0, 0, 0, "", false⟩⟩
instance : Inhabited BufferView := ⟨⟨0, 0, 0, none⟩⟩

/-- C1. For every finalized container byte stream produced by the
serializer, the `totalLength` field written in the 12-byte header equals
the exact byte length of the emitted stream.  First conjunct: the
`glb_exporter.py` serializer, for arbitrary JSON and buffer payloads.
Second conjunct: the `blender_to_glb_simple.py` pipeline
(`create_glb` followed by its `_create_glb_binary`), for an arbitrary JSON
serialization function, mesh input and material count.  The fitting
hypotheses record that packing total_length as a uint32 only succeeds for
values below `2^32`, so a stream is only ever emitted under them. -/
theorem claim_C1_total_length_exact :
    (∀ j b : List UInt8, (create_glb_binary_exporter j b).length < 2 ^ 32 →
      readU32At (create_glb_binary_exporter j b) 8
        = (create_glb_binary_exporter j b).length) ∧
    (∀ (ser : GltfDoc → List UInt8) (md : MeshIn) (matCount : Nat),
      (create_glb_bytes ser md matCount).length < 2 ^ 32 →
      readU32At (create_glb_bytes ser md matCount) 8
        = (create_glb_bytes ser md matCount).length) := by
  constructor
  · exact create_glb_binary_exporter_exact
  · intro ser md matCount hfit
    exact create_glb_binary_simple_exact _ _
      (create_glb_state_aligned md matCount) hfit

/-- Witness for C1 at a concrete export: empty JSON serialization, a mesh
with no primitives, no materials; and the exporter serializer on empty
payloads. -/
theorem claim_C1_total_length_exact_witness :
    readU32At (create_glb_binary_exporter [] []) 8
      = (create_glb_binary_exporter [] []).length ∧
    readU32At (create_glb_bytes (fun _ => []) ⟨"m", []⟩ 0) 8
      = (create_glb_bytes (fun _ => []) ⟨"m", []⟩ 0).length :=
  ⟨claim_C1_total_length_exact.1 [] [] (by decide),
   claim_C1_total_length_exact.2 (fun _ => []) ⟨"m", []⟩ 0 (by decide)⟩

/-- C3. After any sequence of append operations on a generator, every
bufferView record it has emitted has `byteOffset ≡ 0 (mod 4)`.  First
conjunct: the `blender_to_glb_simple.py` generator under arbitrary
`_add_accessor` sequences (arbitrary dtypes and shapes).  Second conjunct:
the `glb_exporter.py` generator under arbitrary interleavings of
`add_primitive_data` and `_add_texture_to_glb_cropped` (raw texture
bytes). -/
theorem claim_C3_bufferview_alignment :
    (∀ (ops : List (NdArray × String)),
      ∀ bv ∈ (runSimple ops).bufferViews, bv.byteOffset % 4 = 0) ∧
    (∀ (ops : List ExpOp),
      ∀ bv ∈ (runExp ops).bufferViews, bv.byteOffset % 4 = 0) :=
  ⟨fun ops => (runSimple_aligned ops).2, fun ops => runExp_views_aligned ops⟩

/-- Witness for C3: a 3-byte uint8 array followed by a 5-byte texture, on
each generator respectively. -/
theorem claim_C3_bufferview_alignment_witness :
    (∀ bv ∈ (runSimple [(⟨.uint8, 3, none, [1, 2, 3]⟩, "POSITION"),
        (⟨.uint8, 5, none, [1, 2, 3, 4, 5]⟩, "NORMAL")]).bufferViews,
      bv.byteOffset % 4 = 0) ∧
    (∀ bv ∈ (runExp [.texture [1, 2, 3, 4, 5] "image/png",
        .primData ⟨.uint32, 1, none, [7]⟩ 5125 "SCALAR" (some 34963)]).bufferViews,
      bv.byteOffset % 4 = 0) :=
  ⟨claim_C3_bufferview_alignment.1 _, claim_C3_bufferview_alignment.2 _⟩

/-- Decoding procedure of spec §8 applied to the accessor and bufferView
just emitted by `_add_accessor`: slice the bufferView's bytes out of the
buffer and read `count * arity(type)` little-endian values of the width
named by `componentType`. -/
def addedAccessorDecode (s : GenState) (nd : NdArray) (attr : String) : List Nat :=
  let r := add_accessor s nd attr
  let acc := r.1.accessors.getD r.2 default
  let bv := r.1.bufferViews.getD acc.bufferView default
  decodeElems (componentWidth acc.componentType)
    (acc.count * arityOfTypeString acc.typeStr)
    ((r.1.buffer.drop bv.byteOffset).take bv.byteLength)

theorem getD_append_length {α : Type} (l : List α) (a : α) (d : α) :
    (l ++ [a]).getD l.length d = a := by
  simp [List.getD]

/-- C2 (amended). Decoding the bytes of the bufferView created by
`_add_accessor`, using the `componentType` and `type` recorded in the
emitted accessor, reproduces the original array bit-for-bit — provided the
recorded component width equals the array's element width and the recorded
type string's arity equals the array's trailing dimension.  This covers
every recognized dtype (int8/uint8/int16/uint16/uint32/float32) and every
recognized arity (1, 2, 3, 4, 9, 16); the claim's further quantification
over unrecognized element types fails (see the counterexample). -/
theorem claim_C2_roundtrip (s : GenState) (nd : NdArray) (attr : String)
    (hwf : nd.WellFormed)
    (hwidth : componentWidth (dtypeComponentType nd.dtype) = nd.dtype.itemsize)
    (harity : arityOfTypeString nd.typeString = nd.arity) :
    addedAccessorDecode s nd attr = nd.elems := by
  unfold addedAccessorDecode add_accessor
  dsimp only
  rw [getD_append_length]
  dsimp only
  rw [getD_append_length]
  dsimp only
  have hlen : nd.tobytes.length = nd.nbytes := by
    rw [length_tobytes, hwf.1, NdArray.nbytes]
  rw [List.append_assoc, List.drop_left' rfl, List.take_left' hlen,
    hwidth, harity]
  have hcount : nd.rows * nd.arity = nd.elems.length := hwf.1.symm
  rw [hcount, NdArray.tobytes, decodeElems_flatMap _ _ hwf.2]

/-- Witness for C2 at a concrete recognized array: a 2-element uint16
scalar array. -/
theorem claim_C2_roundtrip_witness :
    (⟨.uint16, 2, none, [1, 65535]⟩ : NdArray).WellFormed ∧
    addedAccessorDecode GenState.empty ⟨.uint16, 2, none, [1, 65535]⟩ "INDICES"
      = [1, 65535] :=
  ⟨by decide,
   claim_C2_roundtrip GenState.empty ⟨.uint16, 2, none, [1, 65535]⟩ "INDICES"
     (by decide) (by decide) (by decide)⟩

/-- C2, counterexample to the claim as stated.  An `int64` array (an
unrecognized element type, recorded with the FLOAT default) holding the
single value `2^32`: its bufferView stores the eight little-endian bytes
of `2^32`, but decoding per the recorded accessor (`componentType`
FLOAT = 4-byte values, `count` 1, `type` SCALAR) reads back `[0]`, not the
original array.  The round-trip therefore fails bit-for-bit. -/
theorem claim_C2_roundtrip_counterexample :
    (⟨.int64, 1, none, [4294967296]⟩ : NdArray).WellFormed ∧
    addedAccessorDecode GenState.empty ⟨.int64, 1, none, [4294967296]⟩ "POSITION"
      ≠ [4294967296] := by
  constructor
  · decide
  · decide

theorem process_primitive_no_arrays (matCount : Nat) (s : GenState) (p : PrimIn)
    (h : ∀ kv ∈ p.attributes, kv.2 = (none : Option NdArray)) :
    process_primitive matCount s p = (s, none) := by
  have hfold : ∀ (l : List (String × Option NdArray)),
      (∀ kv ∈ l, kv.2 = (none : Option NdArray)) →
      ∀ (acc : GenState × List (String × Nat)),
      (l.foldl (fun acc kv =>
        match kv.2 with
        | some nd => ((add_accessor acc.1 nd kv.1).1, acc.2 ++ [(kv.1, (add_accessor acc.1 nd kv.1).2)])
        | none => acc) acc) = acc := by
    intro l hl
    induction l with
    | nil => intro acc; rfl
    | cons kv tl ih =>
      intro acc
      have hkv : kv.2 = none := hl kv (by simp)
      have htl : ∀ kv ∈ tl, kv.2 = (none : Option NdArray) :=
        fun kv hkv => hl kv (by simp [hkv])
      rcases kv with ⟨k, v⟩
      simp only at hkv
      subst hkv
      simpa using ih htl acc
  unfold process_primitive
  dsimp only
  rw [hfold p.attributes h (s, [])]
  rfl

/-- C9. For every mesh input whose primitives all lack (ndarray)
attribute arrays — including an empty primitive list — `create_glb` still
emits a container containing a mesh: the minimal placeholder mesh
`minimal_mesh` holding a single primitive whose `POSITION` attribute
references accessor 0, a float32 `VEC3` accessor of count 3 (one
triangle), is substituted instead of omitting the mesh. -/
theorem claim_C9_minimal_mesh (md : MeshIn) (matCount : Nat)
    (h : ∀ p ∈ md.primitives, ∀ kv ∈ p.attributes, kv.2 = (none : Option NdArray)) :
    (create_glb md matCount).1.meshes
      = [⟨"minimal_mesh", [⟨[("POSITION", 0)], 4, none, none⟩]⟩] ∧
    (create_glb md matCount).1.accessors
      = [⟨0, 5126, 3, "VEC3", true⟩] := by
  have hrun : md.primitives.foldl
      (fun (acc : GenState × List PrimOut) p =>
        ((process_primitive matCount acc.1 p).1,
          match (process_primitive matCount acc.1 p).2 with
          | some x => acc.2 ++ [x] | none => acc.2))
      (GenState.empty, []) = (GenState.empty, []) := by
    have : ∀ (l : List PrimIn), (∀ p ∈ l, ∀ kv ∈ p.attributes, kv.2 = (none : Option NdArray)) →
        ∀ (acc : GenState × List PrimOut),
        (l.foldl (fun acc p =>
          ((process_primitive matCount acc.1 p).1,
            match (process_primitive matCount acc.1 p).2 with
            | some x => acc.2 ++ [x] | none => acc.2)) acc) = acc := by
      intro l hl
      induction l with
      | nil => intro acc; rfl
      | cons p tl ih =>
        intro acc
        have hp := process_primitive_no_arrays matCount acc.1 p (hl p (by simp))
        have htl : ∀ p ∈ tl, ∀ kv ∈ p.attributes, kv.2 = (none : Option NdArray) :=
          fun p hptl => hl p (by simp [hptl])
        simp only [List.foldl_cons, hp]
        exact ih htl acc
    exact this md.primitives h (GenState.empty, [])
  constructor <;> (unfold create_glb; rw [hrun]; rfl)

/-- Witness for C9: a mesh with one primitive carrying a single non-ndarray
attribute value. -/
theorem claim_C9_minimal_mesh_witness :
    (create_glb ⟨"mesh", [⟨[("POSITION", none)], none, none, 4⟩]⟩ 0).1.meshes
      = [⟨"minimal_mesh", [⟨[("POSITION", 0)], 4, none, none⟩]⟩] ∧
    (create_glb ⟨"mesh", [⟨[("POSITION", none)], none, none, 4⟩]⟩ 0).1.accessors
      = [⟨0, 5126, 3, "VEC3", true⟩] :=
  claim_C9_minimal_mesh ⟨"mesh", [⟨[("POSITION", none)], none, none, 4⟩]⟩ 0
    (by intro p hp kv hkv; simp at hp; subst hp; simp at hkv; simp [hkv])

/-! ## `TextureCropper` (`texture_cropper.py`)

Pixel coordinates are `ℤ` (Python ints); UV coordinates and the
power-of-two heuristic's `0.8`/`0.9` comparisons are `ℚ`. -/

/-- Python `int(q)` on a float: truncation toward zero. -/
def truncQ (q : ℚ) : ℤ := if q < 0 then -(Int.floor (-q)) else Int.floor q

/-- The `while power < value: power *= 2` loop of `next_power_of_2`,
with an explicit iteration bound (`value` iterations always suffice since
the power doubles from 1). -/
def nextPow2Loop : Nat → Nat → Nat → Nat
  | 0, power, _ => power
  | fuel + 1, power, value =>
    if power < value then nextPow2Loop fuel (power * 2) value else power

/-- The `next_power_of_2` (`texture_cropper.py` lines 57-68): 1 for
non-positive input, the value itself if it is a power of two, otherwise
the smallest power of two above it. -/
def next_power_of_2 (v : ℤ) : ℤ :=
  if v ≤ 0 then 1
  else
    let value := v.toNat
    if value &&& (value - 1) = 0 then v
    else (nextPow2Loop value 1 value : ℤ)

/-- The `while power * 2 <= value: power *= 2` loop of `prev_power_of_2`. -/
def prevPow2Loop : Nat → Nat → Nat → Nat
  | 0, power, _ => power
  | fuel + 1, power, value =>
    if power * 2 ≤ value then prevPow2Loop fuel (power * 2) value else power

/-- The `prev_power_of_2` (`texture_cropper.py` lines 70-78). -/
def prev_power_of_2 (v : ℤ) : ℤ :=
  if v ≤ 0 then 1
  else (prevPow2Loop v.toNat 1 v.toNat : ℤ)

/-- The tiled-texture clamp at the top of `crop_texture` (lines 32-37):
when any bound leaves `[0,1]`, all four bounds are clamped into `[0,1]`.
Tuple order is `(min_u, min_v, max_u, max_v)`. -/
def clampUvBounds (uv : ℚ × ℚ × ℚ × ℚ) : ℚ × ℚ × ℚ × ℚ :=
  if uv.1 < 0 ∨ uv.2.2.1 > 1 ∨ uv.2.1 < 0 ∨ uv.2.2.2 > 1 then
    (max 0 uv.1, max 0 uv.2.1, min 1 uv.2.2.1, min 1 uv.2.2.2)
  else uv

/-- UV bounds to padded pixel rectangle (`crop_texture` lines 39-50): the V
axis is flipped, coordinates truncated to ints, padded by `pixel_padding`
and clamped to the image extents.  Returns `(x_min, y_min, x_max, y_max)`. -/
def uvToPixelRect (width height : ℤ) (uv : ℚ × ℚ × ℚ × ℚ) (pixelPadding : ℤ) :
    ℤ × ℤ × ℤ × ℤ :=
  let c := clampUvBounds uv
  let xMin := truncQ (c.1 * (width : ℚ))
  let xMax := truncQ (c.2.2.1 * (width : ℚ))
  let yMin := truncQ ((1 - c.2.2.2) * (height : ℚ))
  let yMax := truncQ ((1 - c.2.1) * (height : ℚ))
  (max 0 (xMin - pixelPadding), max 0 (yMin - pixelPadding),
   min width (xMax + pixelPadding), min height (yMax + pixelPadding))

/-- The power-of-two sizing step of `crop_texture` (lines 80-101): choose
the rounded-down pair only when rounding down wastes strictly less area
and each rounded-down axis keeps at least 80% of the crop length on that
axis; then clamp both axes to at least `min_size`. -/
def choosePow2Size (cropWidth cropHeight minSize : ℤ) : ℤ × ℤ :=
  let widthUp := next_power_of_2 cropWidth
  let heightUp := next_power_of_2 cropHeight
  let widthDown := prev_power_of_2 cropWidth
  let heightDown := prev_power_of_2 cropHeight
  let wasteUp := widthUp * heightUp - cropWidth * cropHeight
  let wasteDown := cropWidth * cropHeight - widthDown * heightDown
  let chosen :=
    if wasteDown < wasteUp ∧ (widthDown : ℚ) ≥ (cropWidth : ℚ) * (8 / 10)
        ∧ (heightDown : ℚ) ≥ (cropHeight : ℚ) * (8 / 10) then
      (widthDown, heightDown)
    else (widthUp, heightUp)
  (max chosen.1 minSize, max chosen.2 minSize)

/-- The centred-expansion step of `crop_texture` for one axis (lines
104-118): executed only when the chosen length exceeds the raw crop
length; returns the adjusted low edge (the high edge computed here is
overwritten by the final bounds step of the source). -/
def expandAxis (lo cropLen newLen limit : ℤ) : ℤ :=
  if newLen > cropLen then
    let expand := Int.fdiv (newLen - cropLen) 2
    let lo1 := max 0 (lo - expand)
    let hi1 := min limit (lo1 + newLen)
    if hi1 - lo1 < newLen then max 0 (hi1 - newLen) else lo1
  else lo

/-- The final bounds step of `crop_texture` for one axis (lines 120-130):
`hi := lo + newLen`, then shift the window inward when it exceeds the
image edge. -/
def finalizeAxis (lo newLen limit : ℤ) : ℤ × ℤ :=
  let hi := lo + newLen
  if hi > limit then (max 0 (limit - newLen), limit) else (lo, hi)

/-- The `TextureCropper.crop_texture` (`texture_cropper.py` lines 14-139),
returning the pixel rectangle `(x_min, y_min, x_max, y_max)` actually
cropped.  (Python returns the pair `(cropped_image, pixel_bounds)`; the
cropped image's dimensions are those of the rectangle, see
`croppedImageSize`.) -/
def crop_texture (width height : ℤ) (uv : ℚ × ℚ × ℚ × ℚ)
    (pixelPadding minSize : ℤ) : ℤ × ℤ × ℤ × ℤ :=
  let r := uvToPixelRect width height uv pixelPadding
  let cropWidth := r.2.2.1 - r.1
  let cropHeight := r.2.2.2 - r.2.1
  let nz := choosePow2Size cropWidth cropHeight minSize
  let xMin := expandAxis r.1 cropWidth nz.1 width
  let yMin := expandAxis r.2.1 cropHeight nz.2 height
  let fx := finalizeAxis xMin nz.1 width
  let fy := finalizeAxis yMin nz.2 height
  (fx.1, fy.1, fx.2, fy.2)

/-- The dimensions of `image.crop(pixel_bounds)`: PIL returns an image of
exactly `(x_max - x_min, y_max - y_min)` pixels. -/
def croppedImageSize (b : ℤ × ℤ × ℤ × ℤ) : ℤ × ℤ :=
  (b.2.2.1 - b.1, b.2.2.2 - b.2.1)

/-- The `np.clip(·, 0.0, 1.0)` applied pointwise. -/
def clip01 (q : ℚ) : ℚ := min (max q 0) 1

/-- The `TextureCropper.remap_uv_coordinates` (`texture_cropper.py` lines
141-173).  The `original_bounds` parameter is part of the signature but
unused by the body, exactly as in the source. -/
def remap_uv_coordinates (uvs : List (ℚ × ℚ)) (originalBounds : ℚ × ℚ × ℚ × ℚ)
    (imageSize : ℤ × ℤ) (cropPixelBounds : ℤ × ℤ × ℤ × ℤ) : List (ℚ × ℚ) :=
  let width := imageSize.1
  let height := imageSize.2
  let xMin := cropPixelBounds.1
  let yMin := cropPixelBounds.2.1
  let xMax := cropPixelBounds.2.2.1
  let yMax := cropPixelBounds.2.2.2
  let uOffset : ℚ := (xMin : ℚ) / (width : ℚ)
  let vOffset : ℚ := 1 - (yMax : ℚ) / (height : ℚ)
  let uScale : ℚ := ((xMax - xMin : ℤ) : ℚ) / (width : ℚ)
  let vScale : ℚ := ((yMax - yMin : ℤ) : ℚ) / (height : ℚ)
  uvs.map fun p => (clip01 ((p.1 - uOffset) / uScale), clip01 ((p.2 - vOffset) / vScale))

/-- The record returned by `TextureCropper.calculate_texture_savings`
(`texture_cropper.py` lines 175-190). -/
structure TextureSavings where
  originalPixels : ℤ
  croppedPixels : ℤ
  pixelReduction : ℤ
  reductionPercent : ℚ
  sizeRatio : ℚ
  deriving DecidableEq, Repr

/-- The `TextureCropper.calculate_texture_savings`. -/
def calculate_texture_savings (originalSize croppedSize : ℤ × ℤ) : TextureSavings :=
  let originalPixels := originalSize.1 * originalSize.2
  let croppedPixels := croppedSize.1 * croppedSize.2
  { originalPixels := originalPixels
    croppedPixels := croppedPixels
    pixelReduction := originalPixels - croppedPixels
    reductionPercent :=
      if originalPixels > 0 then (1 - (croppedPixels : ℚ) / (originalPixels : ℚ)) * 100
      else 0
    sizeRatio :=
      if originalPixels > 0 then (croppedPixels : ℚ) / (originalPixels : ℚ) else 1 }

/-- The `is_power_of_2` (`glb_exporter_cropped.py` lines 294-295):
`n > 0 and (n & (n - 1)) == 0`. -/
def is_power_of_2 (n : ℤ) : Bool :=
  n > 0 && (n.toNat &&& (n.toNat - 1) = 0)

/-- Which texture bytes a primitive ends up referencing: the original
encoded image, or the re-encoded crop of the given pixel rectangle. -/
inductive TexChoice
  | original
  | cropped (pixelBounds : ℤ × ℤ × ℤ × ℤ)
  deriving DecidableEq, Repr

/-- The tiled-texture test of the cropping export path
(`glb_exporter_cropped.py` line 263):
`u_min < -0.01 or u_max > 1.01 or v_min < -0.01 or v_max > 1.01`. -/
def uvBoundsTiled (uv : ℚ × ℚ × ℚ × ℚ) : Bool :=
  uv.1 < -(1 / 100) || uv.2.2.1 > 1 + 1 / 100 ||
    uv.2.1 < -(1 / 100) || uv.2.2.2 > 1 + 1 / 100

/-- The adoption gate of `export_mesh_to_glb_with_texture_cropping`
(`glb_exporter_cropped.py` lines 286-302): crop with `pixel_padding=2`,
`min_size=16`; adopt only when the cropped area is under 90% of the
original, both cropped dimensions are powers of two, and at least one
cropped dimension is strictly smaller. -/
def adoptCrop (originalW originalH : ℤ) (uv : ℚ × ℚ × ℚ × ℚ) : Bool :=
  let pb := crop_texture originalW originalH uv 2 16
  let cs := croppedImageSize pb
  let originalArea := originalW * originalH
  let croppedArea := cs.1 * cs.2
  let areaRatio : ℚ :=
    if originalArea > 0 then (croppedArea : ℚ) / (originalArea : ℚ) else 1
  decide (areaRatio < 9 / 10) && (is_power_of_2 cs.1 && is_power_of_2 cs.2) &&
    (decide (cs.1 < originalW) || decide (cs.2 < originalH))

/-- Texture handling for one primitive in
`export_mesh_to_glb_with_texture_cropping` (`glb_exporter_cropped.py`
lines 255-381): skip tiled textures; otherwise crop, and replace the
texture and remap `TEXCOORD_0` exactly when the adoption gate passes.
(The helper `_add_texture_to_glb`, imported there but absent from
`glb_exporter.py`, only registers whichever bytes were chosen; it is
modelled by the `TexChoice` value.) -/
def exportTextureDecision (originalW originalH : ℤ) (uv : ℚ × ℚ × ℚ × ℚ)
    (uvs : List (ℚ × ℚ)) : TexChoice × List (ℚ × ℚ) :=
  if uvBoundsTiled uv then (.original, uvs)
  else
    let pb := crop_texture originalW originalH uv 2 16
    if adoptCrop originalW originalH uv then
      (.cropped pb, remap_uv_coordinates uvs uv (originalW, originalH) pb)
    else (.original, uvs)

theorem uvToPixelRect_lo_nonneg (w h : ℤ) (uv : ℚ × ℚ × ℚ × ℚ) (p : ℤ) :
    0 ≤ (uvToPixelRect w h uv p).1 ∧ 0 ≤ (uvToPixelRect w h uv p).2.1 := by
  unfold uvToPixelRect
  exact ⟨le_max_left 0 _, le_max_left 0 _⟩

theorem expandAxis_nonneg {lo : ℤ} (h : 0 ≤ lo) (cropLen newLen limit : ℤ) :
    0 ≤ expandAxis lo cropLen newLen limit := by
  unfold expandAxis
  split
  · dsimp only
    split
    · exact le_max_left 0 _
    · exact le_max_left 0 _
  · exact h

theorem choosePow2Size_ge_minSize (cw ch m : ℤ) :
    m ≤ (choosePow2Size cw ch m).1 ∧ m ≤ (choosePow2Size cw ch m).2 := by
  unfold choosePow2Size
  exact ⟨le_max_right _ m, le_max_right _ m⟩

theorem finalizeAxis_bounds {lo newLen limit : ℤ} (h0 : 0 ≤ lo)
    (hn : 1 ≤ newLen) (hl : 1 ≤ limit) :
    0 ≤ (finalizeAxis lo newLen limit).1 ∧
      (finalizeAxis lo newLen limit).1 < (finalizeAxis lo newLen limit).2 ∧
      (finalizeAxis lo newLen limit).2 ≤ limit := by
  unfold finalizeAxis
  dsimp only
  split
  · refine ⟨le_max_left 0 _, ?_, le_refl limit⟩
    have h1 : (0 : ℤ) < limit := hl
    have h2 : limit - newLen < limit := by omega
    omega
  · next hgt =>
    push_neg at hgt
    exact ⟨h0, by omega, hgt⟩

/-- C10. For every image of positive width and height, every UV-bounds
4-tuple, every `pixel_padding ≥ 0` and every `min_size ≥ 1`, the pixel
rectangle `(x_min, y_min, x_max, y_max)` returned by `crop_texture`
satisfies `0 ≤ x_min < x_max ≤ width` and `0 ≤ y_min < y_max ≤ height`,
and the cropped image has dimensions exactly
`(x_max - x_min, y_max - y_min)`. -/
theorem claim_C10_crop_rect_in_image (w h : ℤ) (uv : ℚ × ℚ × ℚ × ℚ)
    (p m : ℤ) (hw : 1 ≤ w) (hh : 1 ≤ h) (hp : 0 ≤ p) (hm : 1 ≤ m) :
    0 ≤ (crop_texture w h uv p m).1 ∧
      (crop_texture w h uv p m).1 < (crop_texture w h uv p m).2.2.1 ∧
      (crop_texture w h uv p m).2.2.1 ≤ w ∧
      0 ≤ (crop_texture w h uv p m).2.1 ∧
      (crop_texture w h uv p m).2.1 < (crop_texture w h uv p m).2.2.2 ∧
      (crop_texture w h uv p m).2.2.2 ≤ h ∧
      croppedImageSize (crop_texture w h uv p m)
        = ((crop_texture w h uv p m).2.2.1 - (crop_texture w h uv p m).1,
           (crop_texture w h uv p m).2.2.2 - (crop_texture w h uv p m).2.1) := by
  have hr := uvToPixelRect_lo_nonneg w h uv p
  have hnz := choosePow2Size_ge_minSize
    ((uvToPixelRect w h uv p).2.2.1 - (uvToPixelRect w h uv p).1)
    ((uvToPixelRect w h uv p).2.2.2 - (uvToPixelRect w h uv p).2.1) m
  have hnw : 1 ≤ (choosePow2Size
      ((uvToPixelRect w h uv p).2.2.1 - (uvToPixelRect w h uv p).1)
      ((uvToPixelRect w h uv p).2.2.2 - (uvToPixelRect w h uv p).2.1) m).1 :=
    le_trans hm hnz.1
  have hnh : 1 ≤ (choosePow2Size
      ((uvToPixelRect w h uv p).2.2.1 - (uvToPixelRect w h uv p).1)
      ((uvToPixelRect w h uv p).2.2.2 - (uvToPixelRect w h uv p).2.1) m).2 :=
    le_trans hm hnz.2
  have hxlo := expandAxis_nonneg hr.1
    ((uvToPixelRect w h uv p).2.2.1 - (uvToPixelRect w h uv p).1)
    (choosePow2Size
      ((uvToPixelRect w h uv p).2.2.1 - (uvToPixelRect w h uv p).1)
      ((uvToPixelRect w h uv p).2.2.2 - (uvToPixelRect w h uv p).2.1) m).1 w
  have hylo := expandAxis_nonneg hr.2
    ((uvToPixelRect w h uv p).2.2.2 - (uvToPixelRect w h uv p).2.1)
    (choosePow2Size
      ((uvToPixelRect w h uv p).2.2.1 - (uvToPixelRect w h uv p).1)
      ((uvToPixelRect w h uv p).2.2.2 - (uvToPixelRect w h uv p).2.1) m).2 h
  have hfx := finalizeAxis_bounds hxlo hnw hw
  have hfy := finalizeAxis_bounds hylo hnh hh
  unfold crop_texture
  dsimp only
  exact ⟨hfx.1, hfx.2.1, hfx.2.2, hfy.1, hfy.2.1, hfy.2.2, rfl⟩

/-- Witness for C10 at a concrete crop: a 100×60 image, UV bounds
`(0.1, 0.2, 0.5, 0.9)`, padding 2, minimum size 16. -/
theorem claim_C10_crop_rect_in_image_witness :
    0 ≤ (crop_texture 100 60 (1/10, 2/10, 5/10, 9/10) 2 16).1 ∧
      (crop_texture 100 60 (1/10, 2/10, 5/10, 9/10) 2 16).1
        < (crop_texture 100 60 (1/10, 2/10, 5/10, 9/10) 2 16).2.2.1 ∧
      (crop_texture 100 60 (1/10, 2/10, 5/10, 9/10) 2 16).2.2.1 ≤ 100 ∧
      0 ≤ (crop_texture 100 60 (1/10, 2/10, 5/10, 9/10) 2 16).2.1 ∧
      (crop_texture 100 60 (1/10, 2/10, 5/10, 9/10) 2 16).2.1
        < (crop_texture 100 60 (1/10, 2/10, 5/10, 9/10) 2 16).2.2.2 ∧
      (crop_texture 100 60 (1/10, 2/10, 5/10, 9/10) 2 16).2.2.2 ≤ 60 ∧
      croppedImageSize (crop_texture 100 60 (1/10, 2/10, 5/10, 9/10) 2 16)
        = ((crop_texture 100 60 (1/10, 2/10, 5/10, 9/10) 2 16).2.2.1
            - (crop_texture 100 60 (1/10, 2/10, 5/10, 9/10) 2 16).1,
           (crop_texture 100 60 (1/10, 2/10, 5/10, 9/10) 2 16).2.2.2
            - (crop_texture 100 60 (1/10, 2/10, 5/10, 9/10) 2 16).2.1) :=
  claim_C10_crop_rect_in_image 100 60 (1/10, 2/10, 5/10, 9/10) 2 16
    (by norm_num) (by norm_num) (by norm_num) (by norm_num)

theorem q80_iff (a b : ℤ) : ((a : ℚ) ≥ (b : ℚ) * (8 / 10)) ↔ 5 * a ≥ 4 * b := by
  constructor
  · intro hq
    have h1 : (4 * b : ℚ) ≤ (5 * a : ℚ) := by linarith
    exact_mod_cast h1
  · intro hz
    have h1 : (4 * b : ℚ) ≤ (5 * a : ℚ) := by exact_mod_cast hz
    push_cast at h1
    linarith

/-- C6. In `crop_texture`'s power-of-two sizing step, for each axis the
rounded-down dimensions are chosen if and only if the down-rounding waste
`crop_w*crop_h - pow2Down_w*pow2Down_h` is strictly less than the
up-rounding waste `pow2Up_w*pow2Up_h - crop_w*crop_h` and each
rounded-down axis is at least 80% of the crop length on that axis
(`5*down ≥ 4*crop`); otherwise both axes round up; and the chosen width
and height are then clamped to at least `min_size`. -/
theorem claim_C6_pow2_choice (cropWidth cropHeight minSize : ℤ) :
    choosePow2Size cropWidth cropHeight minSize =
      (if cropWidth * cropHeight - prev_power_of_2 cropWidth * prev_power_of_2 cropHeight
            < next_power_of_2 cropWidth * next_power_of_2 cropHeight
              - cropWidth * cropHeight
          ∧ 5 * prev_power_of_2 cropWidth ≥ 4 * cropWidth
          ∧ 5 * prev_power_of_2 cropHeight ≥ 4 * cropHeight then
        (max (prev_power_of_2 cropWidth) minSize,
         max (prev_power_of_2 cropHeight) minSize)
      else
        (max (next_power_of_2 cropWidth) minSize,
         max (next_power_of_2 cropHeight) minSize)) := by
  unfold choosePow2Size
  dsimp only
  simp only [q80_iff]
  split_ifs <;> rfl

/-- C6 exercised at a concrete input where rounding down wins: a 17-pixel
crop axis rounds down to 16 (down-waste 33 < up-waste 735, and
16 is at least 80% of 17). -/
theorem choosePow2Size_check : choosePow2Size 17 17 16 = (16, 16) := by
  have h1 : next_power_of_2 17 = 32 := by decide
  have h2 : prev_power_of_2 17 = 16 := by decide
  unfold choosePow2Size
  rw [h1, h2]
  norm_num

theorem clip01_bounds (q : ℚ) : 0 ≤ clip01 q ∧ clip01 q ≤ 1 :=
  ⟨le_min (le_max_right q 0) zero_le_one, min_le_right _ 1⟩

/-- C7. For every UV array and every crop pixel rectangle
`(x0, y0, x1, y1)` with `x0 < x1` and `y0 < y1` inside an image of size
`(width, height)`, `remap_uv_coordinates` returns exactly
`clamp((u - x0/width) / ((x1-x0)/width), 0, 1)` in the U component and
`clamp((v - (1 - y1/height)) / ((y1-y0)/height), 0, 1)` in the V
component, so every output coordinate lies in `[0, 1]`. -/
theorem claim_C7_remap_formula (uvs : List (ℚ × ℚ)) (ob : ℚ × ℚ × ℚ × ℚ)
    (w h x0 y0 x1 y1 : ℤ) (hx0 : 0 ≤ x0) (hxx : x0 < x1) (hx1 : x1 ≤ w)
    (hy0 : 0 ≤ y0) (hyy : y0 < y1) (hy1 : y1 ≤ h) :
    remap_uv_coordinates uvs ob (w, h) (x0, y0, x1, y1)
      = uvs.map (fun p =>
          (clip01 ((p.1 - (x0 : ℚ) / (w : ℚ)) / (((x1 : ℚ) - (x0 : ℚ)) / (w : ℚ))),
           clip01 ((p.2 - (1 - (y1 : ℚ) / (h : ℚ))) / (((y1 : ℚ) - (y0 : ℚ)) / (h : ℚ))))) ∧
    ∀ q ∈ remap_uv_coordinates uvs ob (w, h) (x0, y0, x1, y1),
      0 ≤ q.1 ∧ q.1 ≤ 1 ∧ 0 ≤ q.2 ∧ q.2 ≤ 1 := by
  constructor
  · unfold remap_uv_coordinates
    dsimp only
    refine List.map_congr_left fun p hp => ?_
    push_cast
    rfl
  · intro q hq
    unfold remap_uv_coordinates at hq
    simp only [List.mem_map] at hq
    obtain ⟨p, hp, rfl⟩ := hq
    exact ⟨(clip01_bounds _).1, (clip01_bounds _).2,
      (clip01_bounds _).1, (clip01_bounds _).2⟩

/-- Witness for C7: one UV pair `(1/2, 1/2)` remapped for the rectangle
`(1, 1, 3, 3)` of a 4×4 image. -/
theorem claim_C7_remap_formula_witness :
    remap_uv_coordinates [((1 : ℚ) / 2, (1 : ℚ) / 2)] (0, 0, 1, 1) (4, 4) (1, 1, 3, 3)
      = [((1 : ℚ) / 2, (1 : ℚ) / 2)].map (fun p =>
          (clip01 ((p.1 - ((1 : ℤ) : ℚ) / ((4 : ℤ) : ℚ))
              / ((((3 : ℤ) : ℚ) - ((1 : ℤ) : ℚ)) / ((4 : ℤ) : ℚ))),
           clip01 ((p.2 - (1 - ((3 : ℤ) : ℚ) / ((4 : ℤ) : ℚ)))
              / ((((3 : ℤ) : ℚ) - ((1 : ℤ) : ℚ)) / ((4 : ℤ) : ℚ))))) ∧
    ∀ q ∈ remap_uv_coordinates [((1 : ℚ) / 2, (1 : ℚ) / 2)] (0, 0, 1, 1) (4, 4) (1, 1, 3, 3),
      0 ≤ q.1 ∧ q.1 ≤ 1 ∧ 0 ≤ q.2 ∧ q.2 ≤ 1 :=
  claim_C7_remap_formula [((1 : ℚ) / 2, (1 : ℚ) / 2)] (0, 0, 1, 1) 4 4 1 1 3 3
    (by norm_num) (by norm_num) (by norm_num) (by norm_num) (by norm_num) (by norm_num)

theorem uvToPixelRect_eval_256 :
    uvToPixelRect 256 256 (0, 0, 1, 1) 2 = (0, 0, 256, 256) := by
  unfold uvToPixelRect clampUvBounds truncQ
  norm_num

theorem choosePow2Size_eval_256 : choosePow2Size 256 256 16 = (256, 256) := by
  have h1 : next_power_of_2 256 = 256 := by decide
  have h2 : prev_power_of_2 256 = 256 := by decide
  unfold choosePow2Size
  rw [h1, h2]
  norm_num

theorem crop_texture_eval_256 :
    crop_texture 256 256 (0, 0, 1, 1) 2 16 = (0, 0, 256, 256) := by
  unfold crop_texture
  rw [uvToPixelRect_eval_256]
  norm_num [choosePow2Size_eval_256, expandAxis, finalizeAxis]

theorem uvToPixelRect_eval_1024 :
    uvToPixelRect 1024 1024 (1/4, 1/4, 3/4, 3/4) 2 = (254, 254, 770, 770) := by
  unfold uvToPixelRect clampUvBounds truncQ
  norm_num

theorem choosePow2Size_eval_516 : choosePow2Size 516 516 16 = (512, 512) := by
  have h1 : next_power_of_2 516 = 1024 := by decide
  have h2 : prev_power_of_2 516 = 512 := by decide
  unfold choosePow2Size
  rw [h1, h2]
  norm_num

theorem crop_texture_eval_1024 :
    crop_texture 1024 1024 (1/4, 1/4, 3/4, 3/4) 2 16 = (254, 254, 766, 766) := by
  unfold crop_texture
  rw [uvToPixelRect_eval_1024]
  norm_num [choosePow2Size_eval_516, expandAxis, finalizeAxis]

theorem adoptCrop_iff (ow oh : ℤ) (uv : ℚ × ℚ × ℚ × ℚ) :
    adoptCrop ow oh uv = true ↔
      ((if ow * oh > 0 then
          (((croppedImageSize (crop_texture ow oh uv 2 16)).1
              * (croppedImageSize (crop_texture ow oh uv 2 16)).2 : ℤ) : ℚ)
            / ((ow * oh : ℤ) : ℚ)
        else 1) < 9 / 10
      ∧ is_power_of_2 (croppedImageSize (crop_texture ow oh uv 2 16)).1 = true
      ∧ is_power_of_2 (croppedImageSize (crop_texture ow oh uv 2 16)).2 = true
      ∧ ((croppedImageSize (crop_texture ow oh uv 2 16)).1 < ow
          ∨ (croppedImageSize (crop_texture ow oh uv 2 16)).2 < oh)) := by
  unfold adoptCrop
  simp only [Bool.and_eq_true, Bool.or_eq_true, decide_eq_true_eq]
  constructor
  · rintro ⟨⟨hA, hB, hC⟩, hD⟩
    exact ⟨hA, hB, hC, hD⟩
  · rintro ⟨hA, hB, hC, hD⟩
    exact ⟨⟨hA, hB, hC⟩, hD⟩

/-- C5. In the cropping export path, for non-tiled UV bounds, a cropped
texture replaces the original (and `TEXCOORD_0` is remapped) if and only
if all of: the cropped pixel area is under 90% of the original area, both
cropped dimensions are exact powers of two, and at least one cropped
dimension is strictly smaller than the corresponding original dimension;
when any condition fails, the original texture bytes are used and
`TEXCOORD_0` is left unchanged.  Second conjunct: a 256×256 image with
`uvBounds = (0, 0, 1, 1)` is never replaced (its cropped area equals the
original area). -/
theorem claim_C5_adoption_gate :
    (∀ (ow oh : ℤ) (uv : ℚ × ℚ × ℚ × ℚ) (uvs : List (ℚ × ℚ)),
      uvBoundsTiled uv = false →
      ((exportTextureDecision ow oh uv uvs
          = (.cropped (crop_texture ow oh uv 2 16),
             remap_uv_coordinates uvs uv (ow, oh) (crop_texture ow oh uv 2 16)) ↔
        ((if ow * oh > 0 then
            (((croppedImageSize (crop_texture ow oh uv 2 16)).1
                * (croppedImageSize (crop_texture ow oh uv 2 16)).2 : ℤ) : ℚ)
              / ((ow * oh : ℤ) : ℚ)
          else 1) < 9 / 10
        ∧ is_power_of_2 (croppedImageSize (crop_texture ow oh uv 2 16)).1 = true
        ∧ is_power_of_2 (croppedImageSize (crop_texture ow oh uv 2 16)).2 = true
        ∧ ((croppedImageSize (crop_texture ow oh uv 2 16)).1 < ow
            ∨ (croppedImageSize (crop_texture ow oh uv 2 16)).2 < oh))) ∧
      (¬ ((if ow * oh > 0 then
            (((croppedImageSize (crop_texture ow oh uv 2 16)).1
                * (croppedImageSize (crop_texture ow oh uv 2 16)).2 : ℤ) : ℚ)
              / ((ow * oh : ℤ) : ℚ)
          else 1) < 9 / 10
        ∧ is_power_of_2 (croppedImageSize (crop_texture ow oh uv 2 16)).1 = true
        ∧ is_power_of_2 (croppedImageSize (crop_texture ow oh uv 2 16)).2 = true
        ∧ ((croppedImageSize (crop_texture ow oh uv 2 16)).1 < ow
            ∨ (croppedImageSize (crop_texture ow oh uv 2 16)).2 < oh)) →
        exportTextureDecision ow oh uv uvs = (.original, uvs)))) ∧
    (∀ uvs : List (ℚ × ℚ),
      exportTextureDecision 256 256 (0, 0, 1, 1) uvs = (.original, uvs)) := by
  constructor
  · intro ow oh uv uvs htiled
    constructor
    · rw [← adoptCrop_iff]
      unfold exportTextureDecision
      rw [htiled]
      simp only [Bool.false_eq_true, if_false]
      by_cases hC : adoptCrop ow oh uv = true
      · simp [hC]
      · simp only [Bool.not_eq_true] at hC
        simp [hC]
    · intro hnC
      have hne : adoptCrop ow oh uv ≠ true :=
        fun h => hnC ((adoptCrop_iff ow oh uv).mp h)
      have hC : adoptCrop ow oh uv = false := Bool.eq_false_iff.mpr hne
      unfold exportTextureDecision
      rw [htiled, hC]
      simp
  · intro uvs
    have htiled : uvBoundsTiled (0, 0, 1, 1) = false := by
      unfold uvBoundsTiled
      norm_num
    have hadopt : adoptCrop 256 256 (0, 0, 1, 1) = false := by
      unfold adoptCrop
      rw [crop_texture_eval_256]
      norm_num [croppedImageSize]
    unfold exportTextureDecision
    rw [htiled, hadopt]
    simp

/-- Witness for C5 (hypothesis discharged): a 1024×1024 texture with UV
bounds `(1/4, 1/4, 3/4, 3/4)` is not tiled, so the gate equivalence holds
there. -/
theorem claim_C5_adoption_gate_witness :
    (exportTextureDecision 1024 1024 (1/4, 1/4, 3/4, 3/4) [((1 : ℚ)/2, (1 : ℚ)/2)]
        = (.cropped (crop_texture 1024 1024 (1/4, 1/4, 3/4, 3/4) 2 16),
           remap_uv_coordinates [((1 : ℚ)/2, (1 : ℚ)/2)] (1/4, 1/4, 3/4, 3/4)
             (1024, 1024) (crop_texture 1024 1024 (1/4, 1/4, 3/4, 3/4) 2 16)) ↔
      ((if (1024 : ℤ) * 1024 > 0 then
          (((croppedImageSize (crop_texture 1024 1024 (1/4, 1/4, 3/4, 3/4) 2 16)).1
              * (croppedImageSize (crop_texture 1024 1024 (1/4, 1/4, 3/4, 3/4) 2 16)).2 : ℤ) : ℚ)
            / (((1024 : ℤ) * 1024 : ℤ) : ℚ)
        else 1) < 9 / 10
      ∧ is_power_of_2 (croppedImageSize (crop_texture 1024 1024 (1/4, 1/4, 3/4, 3/4) 2 16)).1 = true
      ∧ is_power_of_2 (croppedImageSize (crop_texture 1024 1024 (1/4, 1/4, 3/4, 3/4) 2 16)).2 = true
      ∧ ((croppedImageSize (crop_texture 1024 1024 (1/4, 1/4, 3/4, 3/4) 2 16)).1 < 1024
          ∨ (croppedImageSize (crop_texture 1024 1024 (1/4, 1/4, 3/4, 3/4) 2 16)).2 < 1024))) ∧
    (¬ ((if (1024 : ℤ) * 1024 > 0 then
          (((croppedImageSize (crop_texture 1024 1024 (1/4, 1/4, 3/4, 3/4) 2 16)).1
              * (croppedImageSize (crop_texture 1024 1024 (1/4, 1/4, 3/4, 3/4) 2 16)).2 : ℤ) : ℚ)
            / (((1024 : ℤ) * 1024 : ℤ) : ℚ)
        else 1) < 9 / 10
      ∧ is_power_of_2 (croppedImageSize (crop_texture 1024 1024 (1/4, 1/4, 3/4, 3/4) 2 16)).1 = true
      ∧ is_power_of_2 (croppedImageSize (crop_texture 1024 1024 (1/4, 1/4, 3/4, 3/4) 2 16)).2 = true
      ∧ ((croppedImageSize (crop_texture 1024 1024 (1/4, 1/4, 3/4, 3/4) 2 16)).1 < 1024
          ∨ (croppedImageSize (crop_texture 1024 1024 (1/4, 1/4, 3/4, 3/4) 2 16)).2 < 1024)) →
      exportTextureDecision 1024 1024 (1/4, 1/4, 3/4, 3/4) [((1 : ℚ)/2, (1 : ℚ)/2)]
        = (.original, [((1 : ℚ)/2, (1 : ℚ)/2)])) :=
  (claim_C5_adoption_gate.1 1024 1024 (1/4, 1/4, 3/4, 3/4) [((1 : ℚ)/2, (1 : ℚ)/2)]
    (by unfold uvBoundsTiled; norm_num))

/-! ## `MeshProcessorAdvanced.process_texture_with_cropping`
(`mesh_processor.py` lines 110-171)

Two repository-level defects shape this embedding.  First, the
function pulls `encode_image_to_buffer` from `blender_to_glb_simple`,
which does not define it (it lives in `glb_exporter.py`); the embedding
takes the encoded bytes, MIME type and image size as inputs, granting
that reference its evident intent.  Second, the first statement of the
`try` block is

    cropped_data, pixel_bounds, new_mime_type = TextureCropper.crop_texture(...)

but `TextureCropper.crop_texture` in `texture_cropper.py` returns the
*two*-tuple `(cropped, pixel_bounds)` (line 139), so the unpacking into
three targets raises `ValueError` before anything else in the block runs,
and the `except Exception` handler returns the original image data. -/

/-- Modelled from the spec: `UVBoundsCalculator.check_if_tiled`, imported
by `mesh_processor.py` from the module `uv_bounds_calculator` which is not
among the source files.  Spec §4.1: true when any bound lies outside
`[0,1]` beyond a small epsilon; the sibling call site
(`glb_exporter_cropped.py` line 263) uses epsilon `0.01`. -/
def check_if_tiled (uv : ℚ × ℚ × ℚ × ℚ) : Bool :=
  uv.1 < -(1 / 100) || uv.2.1 < -(1 / 100) ||
    uv.2.2.1 > 1 + 1 / 100 || uv.2.2.2 > 1 + 1 / 100

/-- The `try` block of `process_texture_with_cropping`: its first
statement unpacks the 2-tuple returned by `TextureCropper.crop_texture`
into three names, which raises `ValueError`; the block therefore never
produces a value.  (The payload type is what the dead remainder of the
block would have produced: cropped bytes, pixel bounds, MIME type and
cropped size.) -/
def mpTryCropBlock (imageData : List UInt8) (imageSize : ℤ × ℤ)
    (uv : ℚ × ℚ × ℚ × ℚ) :
    Except String (List UInt8 × (ℤ × ℤ × ℤ × ℤ) × String × (ℤ × ℤ)) :=
  Except.error "ValueError: not enough values to unpack (expected 3, got 2)"

/-- The 4-tuple `process_texture_with_cropping` returns:
`(image_data, pixel_bounds, original_size, mime_type)`; `data = none`
models the `return None, ...` branch for unencodable images. -/
structure MpResult where
  data : Option (List UInt8)
  pixelBounds : Option (ℤ × ℤ × ℤ × ℤ)
  size : ℤ × ℤ
  mime : String
  deriving DecidableEq, Repr

/-- The `MeshProcessorAdvanced.process_texture_with_cropping`
(`mesh_processor.py` lines 110-171). -/
def process_texture_with_cropping (imageData : List UInt8) (mime : String)
    (imageSize : ℤ × ℤ) (uvBounds : Option (ℚ × ℚ × ℚ × ℚ))
    (enableCropping : Bool) : MpResult :=
  if imageData = [] then ⟨none, none, (0, 0), "image/png"⟩
  else
    match uvBounds with
    | none => ⟨some imageData, none, imageSize, mime⟩
    | some uv =>
      if ¬enableCropping then ⟨some imageData, none, imageSize, mime⟩
      else if (uv.2.2.1 - uv.1) > 9/10 ∧ (uv.2.2.2 - uv.2.1) > 9/10 then
        ⟨some imageData, none, imageSize, mime⟩
      else if check_if_tiled uv then ⟨some imageData, none, imageSize, mime⟩
      else
        match mpTryCropBlock imageData imageSize uv with
        | .error _ => ⟨some imageData, none, imageSize, mime⟩
        | .ok (croppedData, pixelBounds, newMime, croppedSize) =>
          let savings := calculate_texture_savings imageSize croppedSize
          if savings.reductionPercent > 10 then
            ⟨some croppedData, some pixelBounds, imageSize, newMime⟩
          else ⟨some imageData, none, imageSize, mime⟩

/-- C8 (evaluated at the failing input).  A 1024×1024 texture with UV
bounds `(1/4, 1/4, 3/4, 3/4)`: cropping is enabled, the bounds are
neither wide nor tiled, and the crop the pipeline's cropper computes is
512×512 — a 75% pixel reduction, far above the 10% threshold — yet
`process_texture_with_cropping` returns the *original* image bytes with
`pixel_bounds = None`, because the crop attempt always raises (the
2-tuple returned by `crop_texture` is unpacked into three names).
The claim's "returns the cropped texture bytes iff savings exceed 10%"
therefore fails in the only direction that matters. -/
theorem claim_C8_mesh_processor_threshold :
    process_texture_with_cropping [1] "image/png" (1024, 1024)
        (some (1/4, 1/4, 3/4, 3/4)) true
      = ⟨some [1], none, (1024, 1024), "image/png"⟩ ∧
    (calculate_texture_savings (1024, 1024)
        (croppedImageSize (crop_texture 1024 1024 (1/4, 1/4, 3/4, 3/4) 2 16))).reductionPercent
      > 10 := by
  constructor
  · unfold process_texture_with_cropping
    norm_num [check_if_tiled, mpTryCropBlock]
  · rw [crop_texture_eval_1024]
    unfold calculate_texture_savings croppedImageSize
    norm_num

/-! ## `ExternalTextureManager` (`external_texture_manager.py`)

Python dicts are association lists with replace-or-append insertion; the
SHA-256 prefix `hashlib.sha256(data).hexdigest()[:16]` is an external
function of the bytes and enters the model as a parameter `hash`.  Each
each file write of image_data at file_path is logged as a write event
`(content hash, filename, bytes)`. -/

/-- Dictionary lookup on an association list. -/
def alookup {α : Type} : List (String × α) → String → Option α
  | [], _ => none
  | (k, v) :: tl, key => if k = key then some v else alookup tl key

/-- Dictionary insertion (replace the first binding or append). -/
def ainsert {α : Type} : List (String × α) → String → α → List (String × α)
  | [], key, v => [(key, v)]
  | (k, w) :: tl, key, v =>
    if k = key then (k, v) :: tl else (k, w) :: ainsert tl key v

theorem alookup_ainsert_self {α : Type} (l : List (String × α)) (k : String)
    (v : α) : alookup (ainsert l k v) k = some v := by
  induction l with
  | nil => simp [ainsert, alookup]
  | cons kv tl ih =>
    rcases kv with ⟨k', w⟩
    by_cases hk : k' = k <;> simp [ainsert, alookup, hk, ih]

theorem alookup_ainsert_ne {α : Type} (l : List (String × α)) (k k' : String)
    (v : α) (hne : k' ≠ k) : alookup (ainsert l k v) k' = alookup l k' := by
  have hne' : k ≠ k' := fun h => hne h.symm
  induction l with
  | nil => simp [ainsert, alookup, hne']
  | cons kv tl ih =>
    rcases kv with ⟨k'', w⟩
    by_cases hk : k'' = k
    · subst hk
      simp [ainsert, alookup, hne']
    · simp [ainsert, alookup, hk, ih]

/-- Registry state: the global map `texture_registry`
(hash → (filename, relative_uri)), the per-asset maps
`asset_texture_sets`, and the log of file writes. -/
structure RegState where
  texture_registry : List (String × (String × String))
  asset_texture_sets : List (String × List (String × (String × String)))
  writes : List (String × String × List UInt8)

/-- Fresh manager (`__init__`). -/
def RegState.init : RegState := ⟨[], [], []⟩

/-- One `register_texture` request. -/
structure TexRequest where
  data : List UInt8
  originalName : String
  mimeType : String
  assetName : Option String

/-- Python truthiness of the `asset_name` argument (`if asset_name:` —
`None` and the empty string both mean "no scope"). -/
def effectiveAsset (a : Option String) : Option String :=
  match a with
  | some s => if s = "" then none else some s
  | none => none

/-- The `ext_map` MIME-to-extension table with default `.jpg`
(`external_texture_manager.py` lines 61-68). -/
def mimeExtension (mime : String) : String :=
  if mime = "image/jpeg" then ".jpg"
  else if mime = "image/png" then ".png"
  else if mime = "image/webp" then ".webp"
  else if mime = "image/tiff" then ".tiff"
  else ".jpg"

/-- Keep only the alphanumeric, dash and underscore characters of a name
(the filtering join at line 72). -/
def keepAlnumDash (s : String) : String :=
  String.mk (s.toList.filter fun c => c.isAlphanum || c = '-' || c = '_')

/-- The `clean_name` (lines 71-72): strip `_Diffuse`/`_diffuse`, then keep
alphanumerics, `-` and `_`. -/
def cleanTextureName (s : String) : String :=
  keepAlnumDash ((s.replace "_Diffuse" "").replace "_diffuse" "")

/-- The `if asset_name not in self.asset_texture_sets:
self.asset_texture_sets[asset_name] = {}` (lines 45-46). -/
def ensureAssetEntry (s : RegState) (asset : Option String) : RegState :=
  match asset with
  | some a =>
    if (alookup s.asset_texture_sets a).isNone then
      { s with asset_texture_sets := ainsert s.asset_texture_sets a [] }
    else s
  | none => s

/-- The `ExternalTextureManager.register_texture`
(`external_texture_manager.py` lines 27-98). -/
def register_texture (hash : List UInt8 → String) (s : RegState)
    (r : TexRequest) : RegState × (String × String) :=
  let textureHash := hash r.data
  let asset := effectiveAsset r.assetName
  let s0 : RegState := ensureAssetEntry s asset
  let assetHit : Option (String × String) :=
    match asset with
    | some a => alookup ((alookup s0.asset_texture_sets a).getD []) textureHash
    | none => none
  match assetHit with
  | some result => (s0, result)
  | none =>
    match alookup s0.texture_registry textureHash with
    | some result =>
      let assetSets1 :=
        match asset with
        | some a =>
          ainsert s0.asset_texture_sets a
            (ainsert ((alookup s0.asset_texture_sets a).getD []) textureHash result)
        | none => s0.asset_texture_sets
      ({ s0 with asset_texture_sets := assetSets1 }, result)
    | none =>
      let extension := mimeExtension r.mimeType
      let clean := cleanTextureName r.originalName
      let filename :=
        match asset with
        | some a => keepAlnumDash a ++ "_" ++ clean ++ "_" ++ textureHash ++ extension
        | none => clean ++ "_" ++ textureHash ++ extension
      let relativeUri := "textures/" ++ filename
      let result := (filename, relativeUri)
      let assetSets2 :=
        match asset with
        | some a =>
          ainsert s0.asset_texture_sets a
            (ainsert ((alookup s0.asset_texture_sets a).getD []) textureHash result)
        | none => s0.asset_texture_sets
      ({ texture_registry := ainsert s0.texture_registry textureHash result
         asset_texture_sets := assetSets2
         writes := s0.writes ++ [(textureHash, filename, r.data)] }, result)

/-- Run a sequence of registrations. -/
def registerRun (hash : List UInt8 → String) (s : RegState)
    (reqs : List TexRequest) : RegState :=
  reqs.foldl (fun s r => (register_texture hash s r).1) s

/-- Number of file writes whose content has the given hash. -/
def countWrites (h : String) (s : RegState) : Nat :=
  (s.writes.filter fun w => w.1 = h).length

/-- Registry invariant: (a) every per-asset binding agrees with the global
map; (b) a content hash has been written exactly once iff it is in the
global map, never more. -/
def RegInv (s : RegState) : Prop :=
  (∀ a areg, alookup s.asset_texture_sets a = some areg →
    ∀ h res, alookup areg h = some res → alookup s.texture_registry h = some res) ∧
  (∀ h, countWrites h s = if (alookup s.texture_registry h).isSome then 1 else 0)

theorem ensureAssetEntry_registry (s : RegState) (asset : Option String) :
    (ensureAssetEntry s asset).texture_registry = s.texture_registry := by
  unfold ensureAssetEntry
  cases asset with
  | none => rfl
  | some a => by_cases h : (alookup s.asset_texture_sets a).isNone <;> simp [h]

theorem ensureAssetEntry_writes (s : RegState) (asset : Option String) :
    (ensureAssetEntry s asset).writes = s.writes := by
  unfold ensureAssetEntry
  cases asset with
  | none => rfl
  | some a => by_cases h : (alookup s.asset_texture_sets a).isNone <;> simp [h]

theorem ensureAssetEntry_inv {s : RegState} (hinv : RegInv s)
    (asset : Option String) : RegInv (ensureAssetEntry s asset) := by
  constructor
  · intro a areg hareg h res hres
    rw [ensureAssetEntry_registry]
    unfold ensureAssetEntry at hareg
    cases asset with
    | none => exact hinv.1 a areg hareg h res hres
    | some a' =>
      by_cases hnone : (alookup s.asset_texture_sets a').isNone
      · simp only [hnone, if_true] at hareg
        by_cases ha : a = a'
        · subst ha
          rw [alookup_ainsert_self] at hareg
          cases hareg
          simp [alookup] at hres
        · rw [alookup_ainsert_ne _ _ _ _ ha] at hareg
          exact hinv.1 a areg hareg h res hres
      · simp only [hnone, if_false] at hareg
        exact hinv.1 a areg hareg h res hres
  · intro h
    have hw : countWrites h (ensureAssetEntry s asset) = countWrites h s := by
      unfold countWrites
      rw [ensureAssetEntry_writes]
    rw [hw, ensureAssetEntry_registry]
    exact hinv.2 h

theorem countWrites_append (h th f : String) (d : List UInt8) (s : RegState)
    (w : List (String × String × List UInt8)) (hw : w = s.writes ++ [(th, f, d)]) :
    (w.filter fun x => x.1 = h).length
      = countWrites h s + (if th = h then 1 else 0) := by
  subst hw
  unfold countWrites
  rw [List.filter_append, List.length_append]
  by_cases hth : th = h <;> simp [List.filter, hth]

theorem register_texture_global_mono (hash : List UInt8 → String) (s : RegState)
    (r : TexRequest) {h : String} {res : String × String}
    (hres : alookup s.texture_registry h = some res) :
    alookup (register_texture hash s r).1.texture_registry h = some res := by
  unfold register_texture
  dsimp only
  split
  · rw [ensureAssetEntry_registry]
    exact hres
  · split
    · dsimp only
      rw [ensureAssetEntry_registry]
      exact hres
    · next hmiss =>
      by_cases hh : h = hash r.data
      · exfalso
        rw [ensureAssetEntry_registry, ← hh, hres] at hmiss
        cases hmiss
      · dsimp only
        rw [alookup_ainsert_ne _ _ _ _ hh, ensureAssetEntry_registry]
        exact hres

theorem areg_lookup_global {s0 : RegState} (hinv0 : RegInv s0) (a : String)
    {h : String} {res : String × String}
    (hres : alookup ((alookup s0.asset_texture_sets a).getD []) h = some res) :
    alookup s0.texture_registry h = some res := by
  rcases he : alookup s0.asset_texture_sets a with _ | areg
  · rw [he] at hres
    simp [alookup] at hres
  · rw [he] at hres
    exact hinv0.1 a areg he h res hres

theorem register_texture_returns_global (hash : List UInt8 → String)
    (s : RegState) (r : TexRequest) (hinv : RegInv s) :
    alookup (register_texture hash s r).1.texture_registry (hash r.data)
      = some (register_texture hash s r).2 := by
  have hinv0 := ensureAssetEntry_inv hinv (effectiveAsset r.assetName)
  unfold register_texture
  dsimp only
  split
  · next result heq =>
    rw [ensureAssetEntry_registry]
    rcases hasset : effectiveAsset r.assetName with _ | a
    · rw [hasset] at heq
      cases heq
    · rw [hasset] at heq hinv0
      dsimp only at heq
      have := areg_lookup_global hinv0 a heq
      rw [ensureAssetEntry_registry] at this
      exact this
  · split
    · next result heq2 =>
      exact heq2
    · dsimp only
      exact alookup_ainsert_self _ _ _

theorem register_texture_inv (hash : List UInt8 → String) (s : RegState)
    (r : TexRequest) (hinv : RegInv s) :
    RegInv (register_texture hash s r).1 := by
  have hinv0 := ensureAssetEntry_inv hinv (effectiveAsset r.assetName)
  unfold register_texture
  dsimp only
  split
  · exact hinv0
  · split
    · next result heq2 =>
      constructor
      · intro a areg hareg h res hres
        rcases hasset : effectiveAsset r.assetName with _ | a'
        · rw [hasset] at hareg hinv0 heq2
          dsimp only at hareg ⊢
          exact hinv0.1 a areg hareg h res hres
        · rw [hasset] at hareg hinv0 heq2
          dsimp only at hareg ⊢
          by_cases ha : a = a'
          · subst ha
            rw [alookup_ainsert_self] at hareg
            cases hareg
            by_cases hh : h = hash r.data
            · subst hh
              rw [alookup_ainsert_self] at hres
              cases hres
              exact heq2
            · rw [alookup_ainsert_ne _ _ _ _ hh] at hres
              exact areg_lookup_global hinv0 a hres
          · rw [alookup_ainsert_ne _ _ _ _ ha] at hareg
            exact hinv0.1 a areg hareg h res hres
      · intro h
        have hw : countWrites h
            ({ ensureAssetEntry s (effectiveAsset r.assetName) with
               asset_texture_sets :=
                 match effectiveAsset r.assetName with
                 | some a =>
                   ainsert (ensureAssetEntry s (effectiveAsset r.assetName)).asset_texture_sets a
                     (ainsert ((alookup (ensureAssetEntry s (effectiveAsset r.assetName)).asset_texture_sets a).getD [])
                       (hash r.data) result)
                 | none => (ensureAssetEntry s (effectiveAsset r.assetName)).asset_texture_sets } : RegState)
            = countWrites h (ensureAssetEntry s (effectiveAsset r.assetName)) := rfl
        rw [hw]
        exact hinv0.2 h
    · next hmiss =>
      constructor
      · intro a areg hareg h res hres
        dsimp only at hareg ⊢
        rcases hasset : effectiveAsset r.assetName with _ | a'
        · rw [hasset] at hareg hinv0 hmiss
          dsimp only at hareg
          have hglobal := hinv0.1 a areg hareg h res hres
          have hh : h ≠ hash r.data := by
            intro hcontra
            rw [hcontra, hmiss] at hglobal
            cases hglobal
          rw [alookup_ainsert_ne _ _ _ _ hh]
          exact hglobal
        · rw [hasset] at hareg hinv0 hmiss
          dsimp only at hareg
          by_cases ha : a = a'
          · subst ha
            rw [alookup_ainsert_self] at hareg
            cases hareg
            by_cases hh : h = hash r.data
            · subst hh
              rw [alookup_ainsert_self] at hres
              cases hres
              exact alookup_ainsert_self _ _ _
            · rw [alookup_ainsert_ne _ _ _ _ hh] at hres
              have hglobal := areg_lookup_global hinv0 a hres
              rw [alookup_ainsert_ne _ _ _ _ hh]
              exact hglobal
          · rw [alookup_ainsert_ne _ _ _ _ ha] at hareg
            have hglobal := hinv0.1 a areg hareg h res hres
            have hh : h ≠ hash r.data := by
              intro hcontra
              rw [hcontra, hmiss] at hglobal
              cases hglobal
            rw [alookup_ainsert_ne _ _ _ _ hh]
            exact hglobal
      · intro h
        dsimp only
        rw [countWrites]
        dsimp only
        rw [countWrites_append h (hash r.data) _ r.data
          (ensureAssetEntry s (effectiveAsset r.assetName)) _ rfl]
        by_cases hh : hash r.data = h
        · have h0 := hinv0.2 h
          rw [← hh] at h0 ⊢
          rw [hmiss] at h0
          simp only [Option.isSome_none, if_false] at h0
          rw [alookup_ainsert_self]
          simp [h0]
        · rw [alookup_ainsert_ne _ _ _ _ (fun hc => hh hc.symm)]
          simp only [hh, if_false, Nat.add_zero]
          exact hinv0.2 h

theorem RegState_init_inv : RegInv RegState.init := by
  constructor
  · intro a areg hareg
    simp [RegState.init, alookup] at hareg
  · intro h
    simp [RegState.init, countWrites, alookup, List.filter]

theorem registerRun_inv (hash : List UInt8 → String) (reqs : List TexRequest)
    {s : RegState} (hinv : RegInv s) : RegInv (registerRun hash s reqs) := by
  induction reqs generalizing s with
  | nil => exact hinv
  | cons r tl ih => exact ih (register_texture_inv hash s r hinv)

theorem registerRun_global_mono (hash : List UInt8 → String)
    (reqs : List TexRequest) {s : RegState} {h : String} {res : String × String}
    (hres : alookup s.texture_registry h = some res) :
    alookup (registerRun hash s reqs).texture_registry h = some res := by
  induction reqs generalizing s with
  | nil => exact hres
  | cons r tl ih => exact ih (register_texture_global_mono hash s r hres)

/-- C4. Registering byte content with the texture registry twice —
anywhere in a run, under the same asset scope, different asset scopes, or
no scope, and regardless of the `originalName` or `mimeType` passed the
second time — returns the identical `(filename, relativeUri)` pair both
times, and the bytes are written to storage exactly once for that content
hash over the registry instance's lifetime (here: across the whole run
`pre ++ [r1] ++ mid ++ [r2] ++ post`). -/
theorem claim_C4_dedup_idempotent (hash : List UInt8 → String)
    (pre mid post : List TexRequest) (r1 r2 : TexRequest)
    (hdata : r1.data = r2.data) :
    (register_texture hash (registerRun hash RegState.init pre) r1).2
      = (register_texture hash (registerRun hash
          (register_texture hash (registerRun hash RegState.init pre) r1).1 mid) r2).2 ∧
    countWrites (hash r1.data)
      (registerRun hash
        (register_texture hash (registerRun hash
          (register_texture hash (registerRun hash RegState.init pre) r1).1 mid) r2).1
        post) = 1 := by
  have hinv1 : RegInv (registerRun hash RegState.init pre) :=
    registerRun_inv hash pre RegState_init_inv
  have hret1 := register_texture_returns_global hash _ r1 hinv1
  have hinv2 := register_texture_inv hash _ r1 hinv1
  have hmono3 := registerRun_global_mono hash mid hret1
  have hinv3 := registerRun_inv hash mid hinv2
  have hret2 := register_texture_returns_global hash _ r2 hinv3
  have hmono4 := register_texture_global_mono hash _ r2 hmono3
  rw [← hdata] at hret2
  have houtputs := hmono4.symm.trans hret2
  have ho : (register_texture hash (registerRun hash RegState.init pre) r1).2
      = (register_texture hash (registerRun hash
          (register_texture hash (registerRun hash RegState.init pre) r1).1 mid) r2).2 :=
    Option.some.inj houtputs
  refine ⟨ho, ?_⟩
  have hmono5 := registerRun_global_mono hash post hmono4
  have hinv5 := registerRun_inv hash post (register_texture_inv hash _ r2 hinv3)
  have hcount := hinv5.2 (hash r1.data)
  rw [hmono5] at hcount
  simpa using hcount

/-- Witness for C4: the same two bytes registered twice in a row — first
under asset scope `"asset"` with one name/MIME, then with no scope and a
different name/MIME — with a concrete hash function. -/
theorem claim_C4_dedup_idempotent_witness :
    (register_texture (fun _ => "h") (registerRun (fun _ => "h") RegState.init [])
        ⟨[1, 2], "tex_Diffuse", "image/png", some "asset"⟩).2
      = (register_texture (fun _ => "h") (registerRun (fun _ => "h")
          (register_texture (fun _ => "h") (registerRun (fun _ => "h") RegState.init [])
            ⟨[1, 2], "tex_Diffuse", "image/png", some "asset"⟩).1 [])
          ⟨[1, 2], "other", "image/jpeg", none⟩).2 ∧
    countWrites ((fun (_ : List UInt8) => "h") [1, 2])
      (registerRun (fun _ => "h")
        (register_texture (fun _ => "h") (registerRun (fun _ => "h")
          (register_texture (fun _ => "h") (registerRun (fun _ => "h") RegState.init [])
            ⟨[1, 2], "tex_Diffuse", "image/png", some "asset"⟩).1 [])
          ⟨[1, 2], "other", "image/jpeg", none⟩).1
        []) = 1 :=
  claim_C4_dedup_idempotent (fun _ => "h") [] [] []
    ⟨[1, 2], "tex_Diffuse", "image/png", some "asset"⟩
    ⟨[1, 2], "other", "image/jpeg", none⟩ rfl

/-- Sanity check that the adoption gate is not vacuous: the 1024×1024
texture with UV bounds `(1/4, 1/4, 3/4, 3/4)` crops to 512×512 (ratio
1/4, powers of two, strictly smaller) and is adopted. -/
theorem adoptCrop_check : adoptCrop 1024 1024 (1/4, 1/4, 3/4, 3/4) = true := by
  have hp : is_power_of_2 512 = true := by decide
  unfold adoptCrop
  rw [crop_texture_eval_1024]
  norm_num [croppedImageSize, hp]
